import Mathlib

/-! Karabiner-DriverKit-VirtualHIDDevice: the virtual HID device service server.

A shallow embedding of `src/Client/include/io_service_client.hpp` and
`src/Client/include/virtual_hid_device_service_server.hpp`.

Both classes are dispatcher clients: every handler (service monitor signal,
timer tick, received datagram) and every `enqueue_to_dispatcher` lambda is a
work item of one FIFO dispatcher queue.  The embedding keeps that queue
explicit: a `task` is one lambda of the source, `run_task` is its body, and a
call of an `async_*` method appends the lambda to the queue.  Calls of the
IOKit primitives, datagrams sent and log lines are appended to a trace; the
results of the IOKit primitives are supplied from outside (`native`).
-/

/-- The enumeration `pqrs::karabiner::driverkit::virtual_hid_device_service::request`
(the case labels of the switch in the `received` handler). -/
inductive request where
  | none
  | virtual_hid_keyboard_initialize
  | virtual_hid_keyboard_terminate
  | virtual_hid_keyboard_ready
  | virtual_hid_keyboard_reset
  | virtual_hid_pointing_initialize
  | virtual_hid_pointing_terminate
  | virtual_hid_pointing_ready
  | virtual_hid_pointing_reset
  | post_keyboard_input_report
  | post_consumer_input_report
  | post_apple_vendor_keyboard_input_report
  | post_apple_vendor_top_case_input_report
  | post_pointing_input_report
  deriving DecidableEq, Repr

/-- Every enumerator of `request`, in the order of the case labels. -/
def request.all : List request :=
  [.none, request.virtual_hid_keyboard_initialize, .virtual_hid_keyboard_terminate,
   .virtual_hid_keyboard_ready, .virtual_hid_keyboard_reset,
   request.virtual_hid_pointing_initialize, .virtual_hid_pointing_terminate,
   .virtual_hid_pointing_ready, .virtual_hid_pointing_reset,
   .post_keyboard_input_report, .post_consumer_input_report,
   .post_apple_vendor_keyboard_input_report, .post_apple_vendor_top_case_input_report,
   .post_pointing_input_report]

/-- The enumeration `pqrs::karabiner::driverkit::virtual_hid_device_service::response`
(the two enumerators the server uses). -/
inductive response where
  | virtual_hid_keyboard_ready_result
  | virtual_hid_pointing_ready_result
  deriving DecidableEq, Repr

/-- The enumeration `pqrs::karabiner::driverkit::virtual_hid_device::user_client_method`
(the enumerators `io_service_client` uses). -/
inductive user_client_method where
  | virtual_hid_keyboard_initialize
  | virtual_hid_keyboard_terminate
  | virtual_hid_keyboard_ready
  | virtual_hid_keyboard_reset
  | virtual_hid_keyboard_post_report
  | virtual_hid_pointing_initialize
  | virtual_hid_pointing_terminate
  | virtual_hid_pointing_ready
  | virtual_hid_pointing_reset
  | virtual_hid_pointing_post_report
  deriving DecidableEq, Repr

/-- The five report structures of namespace `hid_report`: the template argument
`T` of `async_post_report<T>` and the parameter type of the five
`io_service_client::async_post_report` overloads. -/
inductive hid_report where
  | keyboard_input
  | consumer_input
  | apple_vendor_keyboard_input
  | apple_vendor_top_case_input
  | pointing_input
  deriving DecidableEq, Repr

/-- What the headers that are not part of the sources declare and the two classes
use: the value of each enumerator of `request` and `response` (both `uint8_t`
enumerations), `sizeof(pqrs::hid::country_code::value_t)` and `sizeof(T)` of
each report structure.  The switch in the `received` handler has one case label
per enumerator, so the enumerator values are pairwise distinct. -/
structure declarations where
  request_value : request → Nat
  request_value_injective : ∀ a b, request_value a = request_value b → a = b
  response_value : response → Nat
  sizeof_country_code : Nat
  sizeof_report : hid_report → Nat

/-- The conversion `request(*p)` followed by the selection of a case label: the
enumerator whose value is the byte, if there is one.  The switch has no
default label. -/
def declarations.to_request (D : declarations) (byte : Nat) : Option request :=
  request.all.find? (fun t => D.request_value t == byte)

/-- Log lines of the two classes (the text is not modelled, the place is). -/
inductive log_line where
  | keyboard_initialize_buffer_size_error
  | post_report_buffer_size_error
  | virtual_hid_keyboard_ready_changed (ready : Option Bool)
  | virtual_hid_pointing_ready_changed (ready : Option Bool)
  | IOServiceOpen_error
  deriving DecidableEq, Repr

/-- What the two classes do to the outside: calls of the IOKit primitives (with
the arguments that matter), the call of the service monitor, datagrams handed
to `server_->async_send`, and log lines. -/
inductive observation where
  | IOServiceOpen (service : Nat) (result : Option Nat)
  | IOServiceClose (connection : Nat)
  | IOConnectCallStructMethod (connection : Nat) (selector : user_client_method)
      (input : List Nat) (input_size : Nat)
  | IOConnectCallScalarMethod (connection : Nat) (selector : user_client_method)
      (input : List Nat)
  | async_invoke_service_matched
  | async_send (buffer : List Nat) (endpoint : Nat)
  | log (line : log_line)
  deriving DecidableEq, Repr

/-- The signals whose handlers an outside producer (service monitor, timer,
datagram server) puts on the dispatcher queue. -/
inductive signal where
  | service_matched (service_ptr : Nat)
  | service_terminated
  | ready_timer_
  | received (buffer : Option (List Nat)) (sender_endpoint : Nat)
  deriving DecidableEq, Repr

/-- One work item of the dispatcher queue: the handler of a signal, or one of
the lambdas that `io_service_client` passes to `enqueue_to_dispatcher`.  A
country code and a report are carried as the bytes of the object. -/
inductive task where
  | handler (s : signal)
  | virtual_hid_keyboard_initialize (country_code : List Nat)
  | call (m : user_client_method)
  | virtual_hid_keyboard_ready
  | virtual_hid_keyboard_ready_callback (ready : Option Bool)
  | virtual_hid_pointing_ready
  | virtual_hid_pointing_ready_callback (ready : Option Bool)
  | post_report (T : hid_report) (report : List Nat)
  deriving DecidableEq, Repr

/-- The members of `io_service_client` (`service_`, `connection_`) and of
`virtual_hid_device_service_server` (`io_service_client_` and `server_`: whether
the pointer is non-null; the two cached readiness values), the dispatcher queue
and the trace. -/
structure state where
  service_ : Option Nat
  connection_ : Option Nat
  io_service_client_ : Bool
  server_ : Bool
  virtual_hid_keyboard_ready_ : Option Bool
  virtual_hid_pointing_ready_ : Option Bool
  queue : List task
  trace : List observation
  deriving DecidableEq, Repr

/-- The results of the IOKit primitives during one work item: `IOServiceOpen`
gives a connection or fails; the scalar call of `call_ready` gives `output[0]`
with `kIOReturnSuccess` or fails.  The other return values are not used. -/
structure native where
  IOServiceOpen : Option Nat
  IOConnectCallScalarMethod : Option Nat
  deriving DecidableEq, Repr

/-- The state once both constructors have run: nothing discovered, nothing
cached, nothing queued. -/
def state.initial : state :=
  { service_ := Option.none, connection_ := Option.none,
    io_service_client_ := true, server_ := true,
    virtual_hid_keyboard_ready_ := Option.none, virtual_hid_pointing_ready_ := Option.none,
    queue := [], trace := [] }

/-- Appends a lambda to the dispatcher queue. -/
def enqueue_to_dispatcher (t : task) (st : state) : state :=
  { st with queue := st.queue ++ [t] }

/-- Appends an observation to the trace. -/
def observe (o : observation) (st : state) : state :=
  { st with trace := st.trace ++ [o] }

/-- The integer held by an object of the given bytes (least significant first):
`type_safe::get(country_code)`. -/
def type_safe_get : List Nat → Nat
  | [] => 0
  | b :: bs => b + 256 * type_safe_get bs

namespace io_service_client

/-- The method `async_virtual_hid_keyboard_initialize`. -/
def async_virtual_hid_keyboard_initialize (country_code : List Nat) (st : state) : state :=
  enqueue_to_dispatcher (task.virtual_hid_keyboard_initialize country_code) st

/-- The method `async_virtual_hid_keyboard_terminate`. -/
def async_virtual_hid_keyboard_terminate (st : state) : state :=
  enqueue_to_dispatcher (.call .virtual_hid_keyboard_terminate) st

/-- The method `async_virtual_hid_keyboard_ready`. -/
def async_virtual_hid_keyboard_ready (st : state) : state :=
  enqueue_to_dispatcher .virtual_hid_keyboard_ready st

/-- The method `async_virtual_hid_keyboard_reset`. -/
def async_virtual_hid_keyboard_reset (st : state) : state :=
  enqueue_to_dispatcher (.call .virtual_hid_keyboard_reset) st

/-- The method `async_virtual_hid_pointing_initialize`. -/
def async_virtual_hid_pointing_initialize (st : state) : state :=
  enqueue_to_dispatcher (.call user_client_method.virtual_hid_pointing_initialize) st

/-- The method `async_virtual_hid_pointing_terminate`. -/
def async_virtual_hid_pointing_terminate (st : state) : state :=
  enqueue_to_dispatcher (.call .virtual_hid_pointing_terminate) st

/-- The method `async_virtual_hid_pointing_ready`. -/
def async_virtual_hid_pointing_ready (st : state) : state :=
  enqueue_to_dispatcher .virtual_hid_pointing_ready st

/-- The method `async_virtual_hid_pointing_reset`. -/
def async_virtual_hid_pointing_reset (st : state) : state :=
  enqueue_to_dispatcher (.call .virtual_hid_pointing_reset) st

/-- The five overloads of `async_post_report`: the lambda keeps a copy of the
report. -/
def async_post_report (T : hid_report) (report : List Nat) (st : state) : state :=
  enqueue_to_dispatcher (.post_report T report) st

/-- The method identifier each overload of `async_post_report` passes to
`post_report`. -/
def post_report_method : hid_report → user_client_method
  | .keyboard_input => .virtual_hid_keyboard_post_report
  | .consumer_input => .virtual_hid_keyboard_post_report
  | .apple_vendor_keyboard_input => .virtual_hid_keyboard_post_report
  | .apple_vendor_top_case_input => .virtual_hid_keyboard_post_report
  | .pointing_input => .virtual_hid_pointing_post_report

/-- The method `open_connection`. -/
def open_connection (s : Nat) (n : native) (st : state) : state :=
  match st.connection_ with
  | some _ => st
  | Option.none =>
    let st := observe (.IOServiceOpen s n.IOServiceOpen) { st with service_ := some s }
    match n.IOServiceOpen with
    | some c => { st with connection_ := some c }
    | Option.none => { observe (.log .IOServiceOpen_error) st with connection_ := Option.none }

/-- The method `close_connection`. -/
def close_connection (st : state) : state :=
  let st := match st.connection_ with
    | some c => { observe (.IOServiceClose c) st with connection_ := Option.none }
    | Option.none => st
  { st with service_ := Option.none }

/-- The method `call`: the return value is dropped by every caller. -/
def call (m : user_client_method) (st : state) : state :=
  match st.connection_ with
  | Option.none => st
  | some c => observe (.IOConnectCallStructMethod c m [] 0) st

/-- The method `call_scalar_method`: the return value is dropped by its caller. -/
def call_scalar_method (m : user_client_method) (input : List Nat) (st : state) : state :=
  match st.connection_ with
  | Option.none => st
  | some c => observe (.IOConnectCallScalarMethod c m input) st

/-- The method `call_ready`: the state afterwards and the value returned. -/
def call_ready (m : user_client_method) (n : native) (st : state) : state × Option Bool :=
  match st.connection_ with
  | Option.none => (st, Option.none)
  | some c =>
    let st := observe (.IOConnectCallScalarMethod c m []) st
    match n.IOConnectCallScalarMethod with
    | Option.none => (st, Option.none)
    | some output => (st, some (decide (output ≠ 0)))

/-- The method `post_report`: the return value is dropped by every caller. -/
def post_report (m : user_client_method) (report : List Nat) (report_size : Nat)
    (st : state) : state :=
  match st.connection_ with
  | Option.none => st
  | some c => observe (.IOConnectCallStructMethod c m report report_size) st

end io_service_client

namespace virtual_hid_device_service_server

/-- The slot connected to `virtual_hid_keyboard_ready_callback`. -/
def virtual_hid_keyboard_ready_callback (ready : Option Bool) (st : state) : state :=
  if st.virtual_hid_keyboard_ready_ ≠ ready then
    observe (.log (.virtual_hid_keyboard_ready_changed ready))
      { st with virtual_hid_keyboard_ready_ := ready }
  else st

/-- The slot connected to `virtual_hid_pointing_ready_callback`. -/
def virtual_hid_pointing_ready_callback (ready : Option Bool) (st : state) : state :=
  if st.virtual_hid_pointing_ready_ ≠ ready then
    observe (.log (.virtual_hid_pointing_ready_changed ready))
      { st with virtual_hid_pointing_ready_ := ready }
  else st

/-- The lambda given to `ready_timer_.start`. -/
def ready_timer_ (st : state) : state :=
  if st.io_service_client_ then
    io_service_client.async_virtual_hid_pointing_ready
      (io_service_client.async_virtual_hid_keyboard_ready st)
  else st

/-- The method `async_send_ready_result`. -/
def async_send_ready_result (D : declarations) (r : response) (ready : Option Bool)
    (endpoint : Nat) (st : state) : state :=
  if st.server_ then
    match ready with
    | some b => observe (.async_send [D.response_value r, if b then 1 else 0] endpoint) st
    | Option.none => st
  else st

/-- The method template `async_post_report<T>`: `buffer` is the memory the
pointer argument points at; the report is the `sizeof(T)` bytes there. -/
def async_post_report (D : declarations) (T : hid_report) (buffer : List Nat)
    (buffer_size : Nat) (st : state) : state :=
  if st.io_service_client_ then
    if D.sizeof_report T ≠ buffer_size then
      observe (.log .post_report_buffer_size_error) st
    else
      io_service_client.async_post_report T (buffer.take (D.sizeof_report T)) st
  else st

/-- The handler connected to `server_->received`.  `p` is the address of byte 0
of the buffer and `size` the size of the buffer less one; `p` is the pointer
handed on in every case. -/
def received (D : declarations) (buffer : Option (List Nat)) (sender_endpoint : Nat)
    (st : state) : state :=
  match buffer with
  | Option.none => st
  | some [] => st
  | some (b :: bs) =>
    let p := b :: bs
    let size := (b :: bs).length - 1
    match D.to_request b with
    | Option.none => st
    | some .none => st
    | some request.virtual_hid_keyboard_initialize =>
      if st.io_service_client_ then
        if D.sizeof_country_code ≠ size then
          observe (.log .keyboard_initialize_buffer_size_error) st
        else
          io_service_client.async_virtual_hid_keyboard_initialize
            (p.take D.sizeof_country_code) st
      else st
    | some .virtual_hid_keyboard_terminate =>
      if st.io_service_client_ then io_service_client.async_virtual_hid_keyboard_terminate st
      else st
    | some .virtual_hid_keyboard_ready =>
      async_send_ready_result D .virtual_hid_keyboard_ready_result
        st.virtual_hid_keyboard_ready_ sender_endpoint st
    | some .virtual_hid_keyboard_reset =>
      if st.io_service_client_ then io_service_client.async_virtual_hid_keyboard_reset st
      else st
    | some request.virtual_hid_pointing_initialize =>
      if st.io_service_client_ then io_service_client.async_virtual_hid_pointing_initialize st
      else st
    | some .virtual_hid_pointing_terminate =>
      if st.io_service_client_ then io_service_client.async_virtual_hid_pointing_terminate st
      else st
    | some .virtual_hid_pointing_ready =>
      async_send_ready_result D .virtual_hid_pointing_ready_result
        st.virtual_hid_pointing_ready_ sender_endpoint st
    | some .virtual_hid_pointing_reset =>
      if st.io_service_client_ then io_service_client.async_virtual_hid_pointing_reset st
      else st
    | some .post_keyboard_input_report => async_post_report D .keyboard_input p size st
    | some .post_consumer_input_report => async_post_report D .consumer_input p size st
    | some .post_apple_vendor_keyboard_input_report =>
      async_post_report D .apple_vendor_keyboard_input p size st
    | some .post_apple_vendor_top_case_input_report =>
      async_post_report D .apple_vendor_top_case_input p size st
    | some .post_pointing_input_report => async_post_report D .pointing_input p size st

end virtual_hid_device_service_server

/-- The body of each signal handler: the two service monitor handlers connected
in `io_service_client::async_start`, the timer lambda and the `received`
handler. -/
def run_handler (D : declarations) (n : native) : signal → state → state
  | .service_matched service_ptr, st =>
    io_service_client.open_connection service_ptr n (io_service_client.close_connection st)
  | .service_terminated, st =>
    observe .async_invoke_service_matched (io_service_client.close_connection st)
  | .ready_timer_, st => virtual_hid_device_service_server.ready_timer_ st
  | .received buffer sender_endpoint, st =>
    virtual_hid_device_service_server.received D buffer sender_endpoint st

/-- The body of each work item. -/
def run_task (D : declarations) (n : native) : task → state → state
  | .handler s, st => run_handler D n s st
  | task.virtual_hid_keyboard_initialize country_code, st =>
    io_service_client.call_scalar_method user_client_method.virtual_hid_keyboard_initialize
      [type_safe_get country_code] st
  | .call m, st => io_service_client.call m st
  | .virtual_hid_keyboard_ready, st =>
    let r := io_service_client.call_ready .virtual_hid_keyboard_ready n st
    enqueue_to_dispatcher (.virtual_hid_keyboard_ready_callback r.2) r.1
  | .virtual_hid_keyboard_ready_callback ready, st =>
    virtual_hid_device_service_server.virtual_hid_keyboard_ready_callback ready st
  | .virtual_hid_pointing_ready, st =>
    let r := io_service_client.call_ready .virtual_hid_pointing_ready n st
    enqueue_to_dispatcher (.virtual_hid_pointing_ready_callback r.2) r.1
  | .virtual_hid_pointing_ready_callback ready, st =>
    virtual_hid_device_service_server.virtual_hid_pointing_ready_callback ready st
  | .post_report T report, st =>
    io_service_client.post_report (io_service_client.post_report_method T) report
      (D.sizeof_report T) st

/-- What happens to the dispatcher: a producer puts the handler of a signal on
the queue, or the dispatcher takes the work item at the head of the queue and
runs it (with the results the IOKit primitives give during it). -/
inductive event where
  | emit (s : signal)
  | run (n : native)
  deriving DecidableEq, Repr

/-- One event. -/
def step (D : declarations) (st : state) : event → state
  | .emit s => enqueue_to_dispatcher (.handler s) st
  | .run n =>
    match st.queue with
    | [] => st
    | t :: q => run_task D n t { st with queue := q }

/-- A finite sequence of events. -/
def run (D : declarations) (st : state) (es : List event) : state :=
  es.foldl (step D) st

/-- A set of declarations used to evaluate the handlers on concrete datagrams:
enumerators numbered from 0 in the order of declaration, an 8-byte country
code, reports of 67, 65, 65, 65 and 8 bytes. -/
def declarations.sample : declarations where
  request_value := fun t => request.all.indexOf t
  request_value_injective := by
    intro a b h
    cases a <;> cases b <;> first | rfl | exact absurd h (by decide)
  response_value := fun
    | .virtual_hid_keyboard_ready_result => 1
    | .virtual_hid_pointing_ready_result => 2
  sizeof_country_code := 8
  sizeof_report := fun
    | .keyboard_input => 67
    | .consumer_input => 65
    | .apple_vendor_keyboard_input => 65
    | .apple_vendor_top_case_input => 65
    | .pointing_input => 8

/-! ## Vocabulary of the properties -/

/-- The report structure a post-report request carries (the template argument
of its case in the `received` handler), if the request is one. -/
def request.report : request → Option hid_report
  | .post_keyboard_input_report => some .keyboard_input
  | .post_consumer_input_report => some .consumer_input
  | .post_apple_vendor_keyboard_input_report => some .apple_vendor_keyboard_input
  | .post_apple_vendor_top_case_input_report => some .apple_vendor_top_case_input
  | .post_pointing_input_report => some .pointing_input
  | _ => Option.none

/-- The payload size expected for a request: the width of the country code for
keyboard-initialize, the size of the report structure for a post-report
request, 0 for every other request. -/
def expected_payload_size (D : declarations) (t : request) : Nat :=
  match t with
  | request.virtual_hid_keyboard_initialize => D.sizeof_country_code
  | _ =>
    match t.report with
    | some T => D.sizeof_report T
    | Option.none => 0

/-- The requests whose case compares the payload size before anything else:
keyboard-initialize and the five post-report requests. -/
def request.size_checked (t : request) : Bool :=
  t = request.virtual_hid_keyboard_initialize || t.report.isSome

/-- The method of the `call` lambda a request without payload is forwarded as
(terminate and reset of both devices, pointing-initialize). -/
def request.forwarded_call : request → Option user_client_method
  | .virtual_hid_keyboard_terminate => some .virtual_hid_keyboard_terminate
  | .virtual_hid_keyboard_reset => some .virtual_hid_keyboard_reset
  | request.virtual_hid_pointing_initialize => some user_client_method.virtual_hid_pointing_initialize
  | .virtual_hid_pointing_terminate => some .virtual_hid_pointing_terminate
  | .virtual_hid_pointing_reset => some .virtual_hid_pointing_reset
  | _ => Option.none

/-- The log line of the size check of a request. -/
def request.size_error (t : request) : log_line :=
  if t = request.virtual_hid_keyboard_initialize then .keyboard_initialize_buffer_size_error
  else .post_report_buffer_size_error

/-- The datagram a ready query is answered with, if it is answered: the response
tag and the cached value, when the cached value is definite. -/
def ready_reply (D : declarations) (r : response) (ready : Option Bool) (endpoint : Nat) :
    List observation :=
  match ready with
  | some b => [.async_send [D.response_value r, if b then 1 else 0] endpoint]
  | Option.none => []

/-- A work item that is neither the `service_matched` handler nor a readiness
callback carrying a definite value. -/
def task.quiet : task → Bool
  | .handler (.service_matched _) => false
  | .virtual_hid_keyboard_ready_callback (some _) => false
  | .virtual_hid_pointing_ready_callback (some _) => false
  | _ => true

/-- The observation is a datagram handed to `async_send`. -/
def observation.is_send : observation → Bool
  | .async_send _ _ => true
  | _ => false

/-- No connection, both cached readiness values unknown, only quiet work items
queued: what a run without `service_matched` keeps true. -/
structure unmatched (st : state) : Prop where
  connection : st.connection_ = Option.none
  keyboard : st.virtual_hid_keyboard_ready_ = Option.none
  pointing : st.virtual_hid_pointing_ready_ = Option.none
  queue : ∀ t ∈ st.queue, t.quiet = true
  trace : ∀ o ∈ st.trace, o.is_send = false

/-- The event is not the arrival of a `service_matched` signal. -/
def event.no_match : event → Bool
  | .emit (.service_matched _) => false
  | _ => true

/-- The observation is a call of `IOServiceOpen` or of `IOServiceClose`. -/
def observation.lifecycle : observation → Bool
  | .IOServiceOpen _ _ => true
  | .IOServiceClose _ => true
  | _ => false

/-- The work item is the handler of `service_matched` or of
`service_terminated`. -/
def task.lifecycle : task → Bool
  | .handler (.service_matched _) => true
  | .handler .service_terminated => true
  | _ => false

/-- The connections that are open after one more observation: a successful
`IOServiceOpen` adds its connection, `IOServiceClose` removes its argument. -/
def track_connection (live : List Nat) : observation → List Nat
  | .IOServiceOpen _ (some c) => live ++ [c]
  | .IOServiceClose c => live.erase c
  | _ => live

/-- The connections that are open after the observations `os`, when `live` were
open before. -/
def live_connections (live : List Nat) (os : List observation) : List Nat :=
  os.foldl track_connection live

/-- What a state has added to the trace of an earlier state. -/
def trace_since (st st' : state) : List observation :=
  st'.trace.drop st.trace.length

/-- Work items run one after the other, each with the results the IOKit
primitives give during it. -/
def run_tasks (D : declarations) (st : state) (ts : List (native × task)) : state :=
  ts.foldl (fun s p => run_task D p.1 p.2 s) st

/-- The two handles are the same and the trace has grown by observations other
than `IOServiceOpen` and `IOServiceClose`. -/
structure inert (st st' : state) : Prop where
  service : st'.service_ = st.service_
  connection : st'.connection_ = st.connection_
  trace : ∃ os, st'.trace = st.trace ++ os ∧ ∀ o ∈ os, o.lifecycle = false

/-- The work item is a delivery of the keyboard readiness. -/
def task.is_keyboard_ready_callback : task → Bool
  | .virtual_hid_keyboard_ready_callback _ => true
  | _ => false

/-- The work item is a delivery of the pointing readiness. -/
def task.is_pointing_ready_callback : task → Bool
  | .virtual_hid_pointing_ready_callback _ => true
  | _ => false

/-- The work items the dispatcher runs during a sequence of events, in order. -/
def executed (D : declarations) : state → List event → List task
  | _, [] => []
  | st, e :: es =>
    (match e, st.queue with
      | .run _, t :: _ => [t]
      | _, _ => []) ++ executed D (step D st e) es

/-- No connection handle, no service handle, only quiet work items queued. -/
structure closed (st : state) : Prop where
  connection : st.connection_ = Option.none
  service : st.service_ = Option.none
  queue : ∀ t ∈ st.queue, t.quiet = true

/-- A run that reaches a state with a connection open and both cached readiness
values true: service 5 is matched and opened as connection 9, the timer fires,
both queries answer 1 and both deliveries run. -/
def ready_run : List event :=
  [.emit (.service_matched 5), .run ⟨some 9, Option.none⟩,
   .emit .ready_timer_, .run ⟨Option.none, Option.none⟩,
   .run ⟨Option.none, some 1⟩, .run ⟨Option.none, some 1⟩,
   .run ⟨Option.none, Option.none⟩, .run ⟨Option.none, Option.none⟩]

/-- The values of a sequence that differ from their predecessor, the
predecessor of the first being `prev`. -/
def changes (prev : Option Bool) : List (Option Bool) → List (Option Bool)
  | [] => []
  | v :: vs => (if v ≠ prev then [v] else []) ++ changes v vs

/-- The keyboard readiness values `vs` delivered one after the other. -/
def deliver_keyboard (vs : List (Option Bool)) (st : state) : state :=
  vs.foldl (fun s v => virtual_hid_device_service_server.virtual_hid_keyboard_ready_callback v s) st

/-- The pointing readiness values `vs` delivered one after the other. -/
def deliver_pointing (vs : List (Option Bool)) (st : state) : state :=
  vs.foldl (fun s v => virtual_hid_device_service_server.virtual_hid_pointing_ready_callback v s) st

/-- One step of the Device Session: a call of `open_connection` or of
`close_connection`, the handler of `service_matched` or of
`service_terminated`, or any other work item of the dispatcher; with the
results the IOKit primitives give during it. -/
inductive session_step where
  | open_connection (s : Nat) (n : native)
  | close_connection
  | service_matched (service_ptr : Nat) (n : native)
  | service_terminated (n : native)
  | work (n : native) (t : task)
  deriving DecidableEq, Repr

/-- The state after one step of the Device Session. -/
def session_step.apply (D : declarations) (st : state) : session_step → state
  | .open_connection s n => io_service_client.open_connection s n st
  | .close_connection => io_service_client.close_connection st
  | .service_matched service_ptr n => run_handler D n (.service_matched service_ptr) st
  | .service_terminated n => run_handler D n .service_terminated st
  | .work n t => run_task D n t st

/-- The state after a finite sequence of steps of the Device Session. -/
def session_run (D : declarations) (st : state) (steps : List session_step) : state :=
  steps.foldl (session_step.apply D) st

/-- The work item is the handler of `service_matched`. -/
def task.is_service_matched : task → Bool
  | .handler (.service_matched _) => true
  | _ => false

/-- The event is a run of the dispatcher. -/
def event.is_run : event → Bool
  | .run _ => true
  | _ => false

/-- The values carried by the deliveries of the keyboard readiness among the
work items `ts`, in order. -/
def keyboard_deliveries (ts : List task) : List (Option Bool) :=
  ts.filterMap fun
    | .virtual_hid_keyboard_ready_callback v => some v
    | _ => Option.none

/-- The values carried by the deliveries of the pointing readiness among the
work items `ts`, in order. -/
def pointing_deliveries (ts : List task) : List (Option Bool) :=
  ts.filterMap fun
    | .virtual_hid_pointing_ready_callback v => some v
    | _ => Option.none

/-- A run after which the `service_terminated` handler is at the head of the
queue with a delivery of true queued behind it for each device: service 5 is
matched and opened as connection 9, the timer fires, the service terminates,
and both readiness queries answer 1 before the termination is handled. -/
def race_run : List event :=
  [.emit (.service_matched 5), .run ⟨some 9, Option.none⟩,
   .emit .ready_timer_, .run ⟨Option.none, Option.none⟩,
   .emit .service_terminated,
   .run ⟨Option.none, some 1⟩, .run ⟨Option.none, some 1⟩]

/-- The state after `race_run` with the `service_terminated` handler taken off
the queue. -/
def race_state : state :=
  { service_ := some 5, connection_ := some 9,
    io_service_client_ := true, server_ := true,
    virtual_hid_keyboard_ready_ := Option.none, virtual_hid_pointing_ready_ := Option.none,
    queue := [.virtual_hid_keyboard_ready_callback (some true),
              .virtual_hid_pointing_ready_callback (some true)],
    trace := [.IOServiceOpen 5 (some 9),
              .IOConnectCallScalarMethod 9 .virtual_hid_keyboard_ready [],
              .IOConnectCallScalarMethod 9 .virtual_hid_pointing_ready []] }

/-! ## The request tag -/

/-- A byte that is the value of an enumerator selects the case of that
enumerator. -/
theorem to_request_request_value (D : declarations) (t : request) :
    D.to_request (D.request_value t) = some t := by
  have h : (fun t' => D.request_value t' == D.request_value t) = (fun t' => decide (t' = t)) := by
    funext t'
    by_cases e : t' = t
    · subst e; simp
    · have : D.request_value t' ≠ D.request_value t :=
        fun h' => e (D.request_value_injective _ _ h')
      simp [e, this]
  unfold declarations.to_request
  rw [h]
  cases t <;> rfl

/-! ## Payload size validation -/

/-- C1 (counterexample): with the sample declarations, the datagram `[2, 0]` has
the keyboard-terminate tag and a payload of one byte where none is expected,
and the handler still forwards the terminate call to the Device Session; the
datagram `[3, 0]` is a keyboard ready query with a payload of one byte, and it
is answered when the cached readiness is definite. -/
theorem C1_counterexample :
    declarations.sample.to_request 2 = some .virtual_hid_keyboard_terminate ∧
    [0].length ≠ expected_payload_size declarations.sample .virtual_hid_keyboard_terminate ∧
    (virtual_hid_device_service_server.received declarations.sample (some [2, 0]) 7
      state.initial).queue = [task.call .virtual_hid_keyboard_terminate] ∧
    declarations.sample.to_request 3 = some .virtual_hid_keyboard_ready ∧
    [0].length ≠ expected_payload_size declarations.sample .virtual_hid_keyboard_ready ∧
    (virtual_hid_device_service_server.received declarations.sample (some [3, 0]) 7
      { state.initial with virtual_hid_keyboard_ready_ := some true }).trace
      = [observation.async_send [1, 1] 7] := by
  decide

/-- C4: for the keyboard-initialize tag and each of the five post-report tags, a
datagram whose payload length is not exactly the size of the country code,
respectively of the report structure, forwards nothing to the Device Session
and sends no reply: the handler writes the size-error line to the log and
changes nothing else (and does nothing at all without a Device Session). -/
theorem C4_wrong_size_is_dropped (D : declarations) (t : request) (payload : List Nat)
    (sender : Nat) (st : state)
    (ht : t.size_checked = true)
    (hsize : payload.length ≠ expected_payload_size D t) :
    virtual_hid_device_service_server.received D (some (D.request_value t :: payload)) sender st
      = if st.io_service_client_ then observe (.log t.size_error) st else st := by
  have hne : ¬ expected_payload_size D t = payload.length := fun h => hsize h.symm
  cases t <;>
    simp_all [virtual_hid_device_service_server.received, to_request_request_value,
      virtual_hid_device_service_server.async_post_report, expected_payload_size,
      request.report, request.size_checked, request.size_error]

/-- C4 (witness): keyboard-initialize with one extra trailing byte. -/
theorem C4_wrong_size_is_dropped_witness :
    virtual_hid_device_service_server.received declarations.sample
      (some (declarations.sample.request_value request.virtual_hid_keyboard_initialize
        :: [33, 0, 0, 0, 0, 0, 0, 0, 0])) 7 state.initial
      = if state.initial.io_service_client_ then
          observe (.log (request.size_error request.virtual_hid_keyboard_initialize)) state.initial
        else state.initial :=
  C4_wrong_size_is_dropped declarations.sample request.virtual_hid_keyboard_initialize
    [33, 0, 0, 0, 0, 0, 0, 0, 0] 7 state.initial (by decide) (by decide)

/-- C1 (amended): a datagram whose payload length differs from the expected
payload size of its tag makes no call on the Device Session and sends no reply
when the tag is none, keyboard-initialize or one of the five post-report tags.
For terminate and reset of both devices and for pointing-initialize the payload
length is not looked at: the call is forwarded (when there is a Device Session)
and no reply is sent.  For the two ready queries the payload length is not
looked at either: no call is made on the Device Session, and the reply depends
on the cached readiness alone. -/
theorem C1_wrong_size (D : declarations) (t : request) (payload : List Nat)
    (sender : Nat) (st : state)
    (hsize : payload.length ≠ expected_payload_size D t) :
    (t = .none ∨ t.size_checked = true →
      (virtual_hid_device_service_server.received D
          (some (D.request_value t :: payload)) sender st).queue = st.queue ∧
      ∀ b e, observation.async_send b e ∈
        (virtual_hid_device_service_server.received D
          (some (D.request_value t :: payload)) sender st).trace →
        observation.async_send b e ∈ st.trace) ∧
    (∀ m, t.forwarded_call = some m →
      virtual_hid_device_service_server.received D
          (some (D.request_value t :: payload)) sender st
        = if st.io_service_client_ then enqueue_to_dispatcher (.call m) st else st) ∧
    (t = .virtual_hid_keyboard_ready →
      virtual_hid_device_service_server.received D
          (some (D.request_value t :: payload)) sender st
        = if st.server_ then
            { st with trace := st.trace ++ (ready_reply D response.virtual_hid_keyboard_ready_result
                st.virtual_hid_keyboard_ready_ sender) }
          else st) ∧
    (t = .virtual_hid_pointing_ready →
      virtual_hid_device_service_server.received D
          (some (D.request_value t :: payload)) sender st
        = if st.server_ then
            { st with trace := st.trace ++ (ready_reply D response.virtual_hid_pointing_ready_result
                st.virtual_hid_pointing_ready_ sender) }
          else st) := by
  have hne : ¬ expected_payload_size D t = payload.length := fun h => hsize h.symm
  refine ⟨?_, ?_, ?_, ?_⟩
  · intro ht
    have hdrop : virtual_hid_device_service_server.received D
        (some (D.request_value t :: payload)) sender st = st ∨
        ∃ l, virtual_hid_device_service_server.received D
          (some (D.request_value t :: payload)) sender st = observe (.log l) st := by
      cases t <;>
        simp_all [virtual_hid_device_service_server.received, to_request_request_value,
          virtual_hid_device_service_server.async_post_report, expected_payload_size,
          request.report, request.size_checked] <;>
        cases st.io_service_client_ <;>
        first | exact Or.inr ⟨_, rfl⟩ | simp
    rcases hdrop with h | ⟨l, h⟩ <;> rw [h] <;> simp [observe]
  · intro m hm
    cases t <;>
      simp_all [virtual_hid_device_service_server.received, to_request_request_value,
        request.forwarded_call, io_service_client.async_virtual_hid_keyboard_terminate,
        io_service_client.async_virtual_hid_keyboard_reset,
        io_service_client.async_virtual_hid_pointing_initialize,
        io_service_client.async_virtual_hid_pointing_terminate,
        io_service_client.async_virtual_hid_pointing_reset]
  · intro ht
    subst ht
    obtain ⟨s, c, ic, sv, kb, pt, q, tr⟩ := st
    cases kb <;> cases sv <;>
      simp [virtual_hid_device_service_server.received, to_request_request_value,
        virtual_hid_device_service_server.async_send_ready_result, ready_reply, observe]
  · intro ht
    subst ht
    obtain ⟨s, c, ic, sv, kb, pt, q, tr⟩ := st
    cases pt <;> cases sv <;>
      simp [virtual_hid_device_service_server.received, to_request_request_value,
        virtual_hid_device_service_server.async_send_ready_result, ready_reply, observe]

/-- C1 (witness): a post-pointing-report datagram with a payload of three
bytes. -/
theorem C1_wrong_size_witness :
    [1, 2, 3].length ≠ expected_payload_size declarations.sample .post_pointing_input_report ∧
    (virtual_hid_device_service_server.received declarations.sample
      (some (declarations.sample.request_value .post_pointing_input_report :: [1, 2, 3])) 7
      state.initial).queue = state.initial.queue :=
  ⟨by decide,
    ((C1_wrong_size declarations.sample .post_pointing_input_report [1, 2, 3] 7 state.initial
      (by decide)).1 (Or.inr rfl)).1⟩

/-! ## The payload handed on -/

/-- The bytes a request with a checked payload size hands on: the handler
passes `p`, the address of byte 0 of the datagram, so the object read there
starts with the tag byte and ends one byte before the end of the payload. -/
theorem received_right_size (D : declarations) (payload : List Nat) (sender : Nat) (st : state)
    (hlive : st.io_service_client_ = true) :
    (payload.length = D.sizeof_country_code →
      virtual_hid_device_service_server.received D
        (some (D.request_value request.virtual_hid_keyboard_initialize :: payload)) sender st
        = enqueue_to_dispatcher (task.virtual_hid_keyboard_initialize
            ((D.request_value request.virtual_hid_keyboard_initialize :: payload).take
              D.sizeof_country_code)) st) ∧
    (∀ t T, t.report = some T → payload.length = D.sizeof_report T →
      virtual_hid_device_service_server.received D (some (D.request_value t :: payload)) sender st
        = enqueue_to_dispatcher (.post_report T
            ((D.request_value t :: payload).take (D.sizeof_report T))) st) := by
  constructor
  · intro h
    simp [virtual_hid_device_service_server.received, to_request_request_value, hlive, h,
      io_service_client.async_virtual_hid_keyboard_initialize]
  · intro t T ht h
    cases t <;> simp [request.report] at ht <;> subst ht <;>
      simp [virtual_hid_device_service_server.received, to_request_request_value, hlive, h,
        virtual_hid_device_service_server.async_post_report,
        io_service_client.async_post_report]

/-- C2 (the code at the failing input): with the sample declarations, the
datagram made of the post-keyboard-report tag 9 and the 67 bytes of the report
`1, 2, 0, 4, 0, ..., 0` makes the handler forward the 67 bytes
`9, 1, 2, 0, 4, 0, ..., 0`, which start with the tag byte and are not the bytes
of the report; these are the bytes given to the struct-method call. -/
theorem C2_forwarded_report_at_failing_input :
    (virtual_hid_device_service_server.received declarations.sample
      (some (9 :: ([1, 2, 0, 4] ++ List.replicate 63 0))) 7 state.initial).queue
      = [task.post_report .keyboard_input ([9, 1, 2, 0, 4] ++ List.replicate 62 0)] ∧
    ([9, 1, 2, 0, 4] ++ List.replicate 62 0 : List Nat) ≠ [1, 2, 0, 4] ++ List.replicate 63 0 ∧
    (run_task declarations.sample ⟨Option.none, Option.none⟩
      (task.post_report .keyboard_input ([9, 1, 2, 0, 4] ++ List.replicate 62 0))
      { state.initial with service_ := some 5, connection_ := some 6 }).trace
      = [observation.IOConnectCallStructMethod 6 .virtual_hid_keyboard_post_report
          ([9, 1, 2, 0, 4] ++ List.replicate 62 0) 67] := by
  decide

/-- C3 (the code at the failing input): with the sample declarations, the
datagram made of the keyboard-initialize tag 1 and the 8 bytes of the country
code 33 makes the handler call keyboard-initialize once, with the country code
read from bytes 0 to 7 of the datagram, whose value is 8449 and not 33. -/
theorem C3_country_code_at_failing_input :
    (virtual_hid_device_service_server.received declarations.sample
      (some [1, 33, 0, 0, 0, 0, 0, 0, 0]) 7 state.initial)
      = { state.initial with
          queue := [task.virtual_hid_keyboard_initialize [1, 33, 0, 0, 0, 0, 0, 0]] } ∧
    type_safe_get [33, 0, 0, 0, 0, 0, 0, 0] = 33 ∧
    type_safe_get [1, 33, 0, 0, 0, 0, 0, 0] = 8449 ∧
    (run_task declarations.sample ⟨Option.none, Option.none⟩
      (task.virtual_hid_keyboard_initialize [1, 33, 0, 0, 0, 0, 0, 0])
      { state.initial with service_ := some 5, connection_ := some 6 }).trace
      = [observation.IOConnectCallScalarMethod 6 user_client_method.virtual_hid_keyboard_initialize [8449]] := by
  decide

/-! ## Ready queries -/

/-- C5: while the server is running, a keyboard (resp. pointing) ready query,
whatever its payload, changes nothing but the trace, and adds to it: nothing
when the cached keyboard (resp. pointing) readiness is unknown; when it is
definite, exactly one datagram, sent to the sender, of two bytes, the
keyboard-ready-result (resp. pointing-ready-result) tag and 1 for true, 0 for
false. -/
theorem C5_ready_query_reply (D : declarations) (payload : List Nat) (sender : Nat)
    (st : state) (hserver : st.server_ = true) :
    virtual_hid_device_service_server.received D
        (some (D.request_value .virtual_hid_keyboard_ready :: payload)) sender st
      = { st with trace := st.trace ++
            match st.virtual_hid_keyboard_ready_ with
            | some true =>
              [.async_send [D.response_value .virtual_hid_keyboard_ready_result, 1] sender]
            | some false =>
              [.async_send [D.response_value .virtual_hid_keyboard_ready_result, 0] sender]
            | Option.none => [] } ∧
    virtual_hid_device_service_server.received D
        (some (D.request_value .virtual_hid_pointing_ready :: payload)) sender st
      = { st with trace := st.trace ++
            match st.virtual_hid_pointing_ready_ with
            | some true =>
              [.async_send [D.response_value .virtual_hid_pointing_ready_result, 1] sender]
            | some false =>
              [.async_send [D.response_value .virtual_hid_pointing_ready_result, 0] sender]
            | Option.none => [] } := by
  obtain ⟨s, c, ic, sv, kb, pt, q, tr⟩ := st
  simp only at hserver
  subst hserver
  constructor
  · rcases kb with _ | _ | _ <;>
      simp [virtual_hid_device_service_server.received, to_request_request_value,
        virtual_hid_device_service_server.async_send_ready_result, observe]
  · rcases pt with _ | _ | _ <;>
      simp [virtual_hid_device_service_server.received, to_request_request_value,
        virtual_hid_device_service_server.async_send_ready_result, observe]

/-- C5 (witness): a keyboard ready query while the cached readiness is true. -/
theorem C5_ready_query_reply_witness :
    (virtual_hid_device_service_server.received declarations.sample
        (some (declarations.sample.request_value .virtual_hid_keyboard_ready :: [])) 7
        { state.initial with virtual_hid_keyboard_ready_ := some true }).trace
      = [observation.async_send [1, 1] 7] := by
  rw [(C5_ready_query_reply declarations.sample [] 7
    { state.initial with virtual_hid_keyboard_ready_ := some true } rfl).1]
  rfl

/-! ## Runs without a matched service -/

/-- While both cached readiness values are unknown the `received` handler does
one of three things: nothing, write one log line, enqueue one quiet work
item. -/
theorem received_cases (D : declarations) (buffer : Option (List Nat)) (sender : Nat)
    (st : state) (hk : st.virtual_hid_keyboard_ready_ = Option.none)
    (hp : st.virtual_hid_pointing_ready_ = Option.none) :
    virtual_hid_device_service_server.received D buffer sender st = st ∨
    (∃ l, virtual_hid_device_service_server.received D buffer sender st
      = observe (.log l) st) ∨
    (∃ t, t.quiet = true ∧
      virtual_hid_device_service_server.received D buffer sender st
        = enqueue_to_dispatcher t st) := by
  rcases buffer with _ | _ | ⟨b, bs⟩
  · exact Or.inl rfl
  · exact Or.inl rfl
  · cases hreq : D.to_request b with
    | none =>
      simp only [virtual_hid_device_service_server.received, hreq]
      exact Or.inl trivial
    | some t =>
      cases t <;>
        simp only [virtual_hid_device_service_server.received, hreq, hk, hp,
          virtual_hid_device_service_server.async_send_ready_result,
          virtual_hid_device_service_server.async_post_report,
          io_service_client.async_virtual_hid_keyboard_initialize,
          io_service_client.async_virtual_hid_keyboard_terminate,
          io_service_client.async_virtual_hid_keyboard_reset,
          io_service_client.async_virtual_hid_pointing_initialize,
          io_service_client.async_virtual_hid_pointing_terminate,
          io_service_client.async_virtual_hid_pointing_reset,
          io_service_client.async_post_report] <;>
        (try split_ifs) <;>
        first
          | exact Or.inl trivial
          | exact Or.inl rfl
          | exact Or.inr (Or.inl ⟨_, rfl⟩)
          | exact Or.inr (Or.inr ⟨_, by rfl, rfl⟩)

/-- The `received` handler keeps `unmatched`. -/
theorem received_unmatched (D : declarations) (buffer : Option (List Nat)) (sender : Nat)
    (st : state) (h : unmatched st) :
    unmatched (virtual_hid_device_service_server.received D buffer sender st) := by
  obtain ⟨hc, hk, hp, hq, ht⟩ := h
  rcases received_cases D buffer sender st hk hp with e | ⟨l, e⟩ | ⟨t, hquiet, e⟩ <;> rw [e]
  · exact ⟨hc, hk, hp, hq, ht⟩
  · refine ⟨hc, hk, hp, hq, ?_⟩
    intro o ho
    simp only [observe, List.mem_append, List.mem_singleton] at ho
    rcases ho with ho | ho
    · exact ht o ho
    · subst ho; rfl
  · refine ⟨hc, hk, hp, ?_, ht⟩
    intro t' ht'
    simp only [enqueue_to_dispatcher, List.mem_append, List.mem_singleton] at ht'
    rcases ht' with ht' | ht'
    · exact hq t' ht'
    · subst ht'; exact hquiet

/-- Running a quiet work item keeps `unmatched`. -/
theorem run_task_unmatched (D : declarations) (n : native) (t : task) (st : state)
    (h : unmatched st) (hquiet : t.quiet = true) : unmatched (run_task D n t st) := by
  cases t with
  | handler s =>
    cases s with
    | service_matched service_ptr => simp [task.quiet] at hquiet
    | received buffer sender => exact received_unmatched D buffer sender st h
    | service_terminated =>
      obtain ⟨hc, hk, hp, hq, ht⟩ := h
      obtain ⟨s, c, ic, sv, kb, pt, q, tr⟩ := st
      simp only at hc hk hp hq ht
      subst hc hk hp
      refine ⟨rfl, rfl, rfl, hq, ?_⟩
      intro o ho
      simp only [run_task, run_handler, io_service_client.close_connection, observe,
        List.mem_append, List.mem_singleton] at ho
      rcases ho with ho | ho
      · exact ht o ho
      · subst ho; rfl
    | ready_timer_ =>
      obtain ⟨hc, hk, hp, hq, ht⟩ := h
      simp only [run_task, run_handler, virtual_hid_device_service_server.ready_timer_,
        io_service_client.async_virtual_hid_keyboard_ready,
        io_service_client.async_virtual_hid_pointing_ready, enqueue_to_dispatcher]
      split_ifs
      · refine ⟨hc, hk, hp, ?_, ht⟩
        intro t ht'
        simp only [List.mem_append, List.mem_singleton] at ht'
        rcases ht' with (ht' | ht') | ht'
        · exact hq t ht'
        · subst ht'; rfl
        · subst ht'; rfl
      · exact ⟨hc, hk, hp, hq, ht⟩
  | virtual_hid_keyboard_initialize country_code =>
    have e : run_task D n (task.virtual_hid_keyboard_initialize country_code) st = st := by
      simp [run_task, io_service_client.call_scalar_method, h.connection]
    rw [e]; exact h
  | call m =>
    have e : run_task D n (.call m) st = st := by
      simp [run_task, io_service_client.call, h.connection]
    rw [e]; exact h
  | post_report T report =>
    have e : run_task D n (.post_report T report) st = st := by
      simp [run_task, io_service_client.post_report, h.connection]
    rw [e]; exact h
  | virtual_hid_keyboard_ready =>
    have e : run_task D n .virtual_hid_keyboard_ready st
        = enqueue_to_dispatcher (.virtual_hid_keyboard_ready_callback Option.none) st := by
      simp [run_task, io_service_client.call_ready, h.connection]
    rw [e]
    refine ⟨h.connection, h.keyboard, h.pointing, ?_, h.trace⟩
    intro t ht'
    simp only [enqueue_to_dispatcher, List.mem_append, List.mem_singleton] at ht'
    rcases ht' with ht' | ht'
    · exact h.queue t ht'
    · subst ht'; rfl
  | virtual_hid_pointing_ready =>
    have e : run_task D n .virtual_hid_pointing_ready st
        = enqueue_to_dispatcher (.virtual_hid_pointing_ready_callback Option.none) st := by
      simp [run_task, io_service_client.call_ready, h.connection]
    rw [e]
    refine ⟨h.connection, h.keyboard, h.pointing, ?_, h.trace⟩
    intro t ht'
    simp only [enqueue_to_dispatcher, List.mem_append, List.mem_singleton] at ht'
    rcases ht' with ht' | ht'
    · exact h.queue t ht'
    · subst ht'; rfl
  | virtual_hid_keyboard_ready_callback ready =>
    cases ready with
    | some b => simp [task.quiet] at hquiet
    | none =>
      have e : run_task D n (.virtual_hid_keyboard_ready_callback Option.none) st = st := by
        simp [run_task, virtual_hid_device_service_server.virtual_hid_keyboard_ready_callback,
          h.keyboard]
      rw [e]; exact h
  | virtual_hid_pointing_ready_callback ready =>
    cases ready with
    | some b => simp [task.quiet] at hquiet
    | none =>
      have e : run_task D n (.virtual_hid_pointing_ready_callback Option.none) st = st := by
        simp [run_task, virtual_hid_device_service_server.virtual_hid_pointing_ready_callback,
          h.pointing]
      rw [e]; exact h

/-- An event other than the arrival of `service_matched` keeps `unmatched`. -/
theorem step_unmatched (D : declarations) (st : state) (e : event)
    (h : unmatched st) (he : e.no_match = true) : unmatched (step D st e) := by
  cases e with
  | emit s =>
    refine ⟨h.connection, h.keyboard, h.pointing, ?_, h.trace⟩
    intro t ht
    simp only [step, enqueue_to_dispatcher, List.mem_append, List.mem_singleton] at ht
    rcases ht with ht | ht
    · exact h.queue t ht
    · subst ht
      cases s <;> first | rfl | simp [event.no_match] at he
  | run n =>
    cases hq : st.queue with
    | nil => simp only [step, hq]; exact h
    | cons t q =>
      simp only [step, hq]
      apply run_task_unmatched
      · refine ⟨h.connection, h.keyboard, h.pointing, ?_, h.trace⟩
        intro t' ht'
        exact h.queue t' (by rw [hq]; exact List.mem_cons_of_mem _ ht')
      · exact h.queue t (by rw [hq]; exact List.mem_cons_self _ _)

/-- A run without the arrival of `service_matched` keeps `unmatched`. -/
theorem run_unmatched (D : declarations) (es : List event) :
    ∀ st, unmatched st → (∀ e ∈ es, e.no_match = true) → unmatched (run D st es) := by
  induction es with
  | nil => intro st h _; exact h
  | cons e es ih =>
    intro st h hes
    exact ih (step D st e) (step_unmatched D st e h (hes e (List.mem_cons_self _ _)))
      (fun e' he' => hes e' (List.mem_cons_of_mem _ he'))

/-- C6: in every state reached from the initial state by a finite sequence of
events without the arrival of a `service_matched` signal (timer ticks, received
datagrams, `service_terminated`, and the dispatcher running whatever is
queued), both cached readiness values are unknown, no datagram has been sent,
and a keyboard or pointing ready query handled in that state changes nothing:
no reply datagram is produced. -/
theorem C6_no_reply_before_match (D : declarations) (es : List event)
    (hes : ∀ e ∈ es, e.no_match = true) :
    (run D state.initial es).virtual_hid_keyboard_ready_ = Option.none ∧
    (run D state.initial es).virtual_hid_pointing_ready_ = Option.none ∧
    (∀ o ∈ (run D state.initial es).trace, o.is_send = false) ∧
    ∀ payload sender,
      virtual_hid_device_service_server.received D
          (some (D.request_value .virtual_hid_keyboard_ready :: payload)) sender
          (run D state.initial es) = run D state.initial es ∧
      virtual_hid_device_service_server.received D
          (some (D.request_value .virtual_hid_pointing_ready :: payload)) sender
          (run D state.initial es) = run D state.initial es := by
  have h0 : unmatched state.initial :=
    ⟨rfl, rfl, rfl, by simp [state.initial], by simp [state.initial]⟩
  have h := run_unmatched D es state.initial h0 hes
  refine ⟨h.keyboard, h.pointing, h.trace, ?_⟩
  intro payload sender
  constructor
  · simp only [virtual_hid_device_service_server.received, to_request_request_value,
      virtual_hid_device_service_server.async_send_ready_result, h.keyboard]
    split_ifs <;> rfl
  · simp only [virtual_hid_device_service_server.received, to_request_request_value,
      virtual_hid_device_service_server.async_send_ready_result, h.pointing]
    split_ifs <;> rfl

/-- C6 (witness): a timer tick, its three work items, and a keyboard ready
query. -/
theorem C6_no_reply_before_match_witness :
    (run declarations.sample state.initial
      [.emit .ready_timer_, .run ⟨Option.none, some 1⟩, .run ⟨Option.none, some 1⟩,
       .run ⟨Option.none, some 1⟩, .emit (.received (some [3]) 7),
       .run ⟨Option.none, some 1⟩]).virtual_hid_keyboard_ready_ = Option.none :=
  (C6_no_reply_before_match declarations.sample
    [.emit .ready_timer_, .run ⟨Option.none, some 1⟩, .run ⟨Option.none, some 1⟩,
     .run ⟨Option.none, some 1⟩, .emit (.received (some [3]) 7),
     .run ⟨Option.none, some 1⟩] (by decide)).1

/-! ## The connection life cycle -/

theorem inert.refl (st : state) : inert st st :=
  ⟨rfl, rfl, [], by simp, by simp⟩

theorem inert.trans {a b c : state} (h1 : inert a b) (h2 : inert b c) : inert a c := by
  obtain ⟨s1, c1, os1, e1, l1⟩ := h1
  obtain ⟨s2, c2, os2, e2, l2⟩ := h2
  refine ⟨s2.trans s1, c2.trans c1, os1 ++ os2, by rw [e2, e1, List.append_assoc], ?_⟩
  intro o ho
  rcases List.mem_append.mp ho with ho | ho
  · exact l1 o ho
  · exact l2 o ho

theorem inert_observe (o : observation) (st : state) (ho : o.lifecycle = false) :
    inert st (observe o st) :=
  ⟨rfl, rfl, [o], rfl, by simpa using ho⟩

theorem inert_enqueue (t : task) (st : state) : inert st (enqueue_to_dispatcher t st) :=
  ⟨rfl, rfl, [], by simp [enqueue_to_dispatcher], by simp⟩

/-- The `received` handler does one of three things: nothing, one observation
that is not a call of `IOServiceOpen` or `IOServiceClose`, one quiet work item
enqueued. -/
theorem received_effect (D : declarations) (buffer : Option (List Nat)) (sender : Nat)
    (st : state) :
    virtual_hid_device_service_server.received D buffer sender st = st ∨
    (∃ o, o.lifecycle = false ∧
      virtual_hid_device_service_server.received D buffer sender st = observe o st) ∨
    (∃ t, t.quiet = true ∧
      virtual_hid_device_service_server.received D buffer sender st
        = enqueue_to_dispatcher t st) := by
  rcases buffer with _ | _ | ⟨b, bs⟩
  · exact Or.inl rfl
  · exact Or.inl rfl
  · cases hreq : D.to_request b with
    | none =>
      simp only [virtual_hid_device_service_server.received, hreq]
      exact Or.inl trivial
    | some t =>
      cases t <;>
        simp only [virtual_hid_device_service_server.received, hreq,
          virtual_hid_device_service_server.async_send_ready_result,
          virtual_hid_device_service_server.async_post_report,
          io_service_client.async_virtual_hid_keyboard_initialize,
          io_service_client.async_virtual_hid_keyboard_terminate,
          io_service_client.async_virtual_hid_keyboard_reset,
          io_service_client.async_virtual_hid_pointing_initialize,
          io_service_client.async_virtual_hid_pointing_terminate,
          io_service_client.async_virtual_hid_pointing_reset,
          io_service_client.async_post_report] <;>
        (try split_ifs) <;>
        (try split) <;>
        first
          | exact Or.inl trivial
          | exact Or.inl rfl
          | exact Or.inr (Or.inl ⟨_, by rfl, rfl⟩)
          | exact Or.inr (Or.inr ⟨_, by rfl, rfl⟩)

/-- A work item other than the two service monitor handlers leaves the handles
alone and calls neither `IOServiceOpen` nor `IOServiceClose`. -/
theorem run_task_inert (D : declarations) (n : native) (t : task) (st : state)
    (ht : t.lifecycle = false) : inert st (run_task D n t st) := by
  cases t with
  | handler s =>
    cases s with
    | service_matched service_ptr => simp [task.lifecycle] at ht
    | service_terminated => simp [task.lifecycle] at ht
    | received buffer sender =>
      simp only [run_task, run_handler]
      rcases received_effect D buffer sender st with e | ⟨o, ho, e⟩ | ⟨t, _, e⟩ <;> rw [e]
      · exact inert.refl st
      · exact inert_observe o st ho
      · exact inert_enqueue t st
    | ready_timer_ =>
      simp only [run_task, run_handler, virtual_hid_device_service_server.ready_timer_,
        io_service_client.async_virtual_hid_keyboard_ready,
        io_service_client.async_virtual_hid_pointing_ready]
      split_ifs
      · exact (inert_enqueue _ st).trans (inert_enqueue _ _)
      · exact inert.refl st
  | virtual_hid_keyboard_initialize country_code =>
    simp only [run_task, io_service_client.call_scalar_method]
    split
    · exact inert.refl st
    · exact inert_observe _ st rfl
  | call m =>
    simp only [run_task, io_service_client.call]
    split
    · exact inert.refl st
    · exact inert_observe _ st rfl
  | post_report T report =>
    simp only [run_task, io_service_client.post_report]
    split
    · exact inert.refl st
    · exact inert_observe _ st rfl
  | virtual_hid_keyboard_ready =>
    simp only [run_task, io_service_client.call_ready]
    split
    · exact inert_enqueue _ st
    · split
      · exact (inert_observe _ st (by rfl)).trans (inert_enqueue _ _)
      · exact (inert_observe _ st (by rfl)).trans (inert_enqueue _ _)
  | virtual_hid_pointing_ready =>
    simp only [run_task, io_service_client.call_ready]
    split
    · exact inert_enqueue _ st
    · split
      · exact (inert_observe _ st (by rfl)).trans (inert_enqueue _ _)
      · exact (inert_observe _ st (by rfl)).trans (inert_enqueue _ _)
  | virtual_hid_keyboard_ready_callback ready =>
    simp only [run_task, virtual_hid_device_service_server.virtual_hid_keyboard_ready_callback]
    split_ifs
    · exact ⟨rfl, rfl, [_], rfl, by simp [observation.lifecycle]⟩
    · exact inert.refl st
  | virtual_hid_pointing_ready_callback ready =>
    simp only [run_task, virtual_hid_device_service_server.virtual_hid_pointing_ready_callback]
    split_ifs
    · exact ⟨rfl, rfl, [_], rfl, by simp [observation.lifecycle]⟩
    · exact inert.refl st

/-- Work items other than the two service monitor handlers, run one after the
other, leave the handles alone and call neither `IOServiceOpen` nor
`IOServiceClose`. -/
theorem run_tasks_inert (D : declarations) (ts : List (native × task)) :
    ∀ st, (∀ p ∈ ts, p.2.lifecycle = false) → inert st (run_tasks D st ts) := by
  induction ts with
  | nil => intro st _; exact inert.refl st
  | cons p ts ih =>
    intro st h
    exact (run_task_inert D p.1 p.2 st (h p (List.mem_cons_self _ _))).trans
      (ih _ (fun q hq => h q (List.mem_cons_of_mem _ hq)))

/-- The `service_matched` handler: whatever connection is open is closed, then
`IOServiceOpen` is called for the matched service; the service handle is the
matched service and the connection handle is what `IOServiceOpen` gave. -/
theorem service_matched_effect (D : declarations) (n : native) (s : Nat) (st : state) :
    run_task D n (.handler (.service_matched s)) st
      = { st with
          service_ := some s
          connection_ := n.IOServiceOpen
          trace := st.trace ++ (st.connection_.toList.map observation.IOServiceClose
            ++ [observation.IOServiceOpen s n.IOServiceOpen]
            ++ if n.IOServiceOpen.isSome then [] else [.log .IOServiceOpen_error]) } := by
  obtain ⟨sv, c, ic, srv, kb, pt, q, tr⟩ := st
  obtain ⟨o, r⟩ := n
  cases c <;> cases o <;>
    simp [run_task, run_handler, io_service_client.open_connection,
      io_service_client.close_connection, observe]

/-- Observations other than `IOServiceOpen` and `IOServiceClose` do not change
the connections that are open. -/
theorem live_connections_inert (os : List observation) :
    ∀ live, (∀ o ∈ os, o.lifecycle = false) → live_connections live os = live := by
  induction os with
  | nil => intro live _; rfl
  | cons o os ih =>
    intro live h
    have ho : o.lifecycle = false := h o (List.mem_cons_self _ _)
    have e : track_connection live o = live := by
      cases o <;> first | rfl | simp [observation.lifecycle] at ho
    simp only [live_connections, List.foldl_cons, e]
    exact ih live (fun o' ho' => h o' (List.mem_cons_of_mem _ ho'))

/-- C7 (last match wins): from any state, when the `service_matched` handler
runs for service `A`, then any work items other than the two service monitor
handlers, then the `service_matched` handler for service `B` with
`IOServiceOpen` succeeding: the service handle is `B`, the connection handle is
the connection opened against `B`, and it is the only connection open; the
calls of `IOServiceOpen` and `IOServiceClose` were, in this order: the close of
the connection that was open at the start (if any), the open against `A`, the
close of the connection of `A` (if that open succeeded), the open against
`B`. -/
theorem C7_last_match_wins (D : declarations) (st : state) (A B : Nat) (nA nB : native)
    (mid : List (native × task)) (cB : Nat)
    (hmid : ∀ p ∈ mid, p.2.lifecycle = false)
    (hB : nB.IOServiceOpen = some cB) :
    (run_task D nB (.handler (.service_matched B))
      (run_tasks D (run_task D nA (.handler (.service_matched A)) st) mid)).service_
      = some B ∧
    (run_task D nB (.handler (.service_matched B))
      (run_tasks D (run_task D nA (.handler (.service_matched A)) st) mid)).connection_
      = some cB ∧
    (trace_since st (run_task D nB (.handler (.service_matched B))
      (run_tasks D (run_task D nA (.handler (.service_matched A)) st) mid))).filter
        observation.lifecycle
      = st.connection_.toList.map observation.IOServiceClose
        ++ [observation.IOServiceOpen A nA.IOServiceOpen]
        ++ nA.IOServiceOpen.toList.map observation.IOServiceClose
        ++ [observation.IOServiceOpen B (some cB)] ∧
    live_connections st.connection_.toList
      (trace_since st (run_task D nB (.handler (.service_matched B))
        (run_tasks D (run_task D nA (.handler (.service_matched A)) st) mid)))
      = [cB] := by
  obtain ⟨hs, hc, os, htr, hos⟩ :=
    run_tasks_inert D mid (run_task D nA (.handler (.service_matched A)) st) hmid
  have hfil : os.filter observation.lifecycle = [] := by
    rw [List.filter_eq_nil_iff]
    intro o ho
    simp [hos o ho]
  rw [service_matched_effect D nB B]
  simp only [hc, htr, hB]
  rw [service_matched_effect D nA A]
  simp only [trace_since, List.append_assoc, List.drop_left]
  refine ⟨trivial, trivial, ?_, ?_⟩
  · cases st.connection_ <;> cases nA.IOServiceOpen <;>
      simp [List.filter_append, hfil, observation.lifecycle, List.filter]
  · have hl : ∀ l, List.foldl track_connection l os = l :=
      fun l => live_connections_inert os l hos
    cases st.connection_ <;> cases nA.IOServiceOpen <;>
      simp [live_connections, List.foldl_append, track_connection, hl]

/-- C7 (witness): service 5 is matched and opened as connection 9, a keyboard
readiness query runs, service 8 is matched and opened as connection 10. -/
theorem C7_last_match_wins_witness :
    (run_task declarations.sample ⟨some 10, Option.none⟩ (.handler (.service_matched 8))
      (run_tasks declarations.sample
        (run_task declarations.sample ⟨some 9, Option.none⟩ (.handler (.service_matched 5))
          state.initial)
        [(⟨Option.none, some 1⟩, task.virtual_hid_keyboard_ready)])).connection_
      = some 10 :=
  (C7_last_match_wins declarations.sample state.initial 5 8 ⟨some 9, Option.none⟩
    ⟨some 10, Option.none⟩ [(⟨Option.none, some 1⟩, task.virtual_hid_keyboard_ready)] 10
    (by decide) rfl).2.1

/-! ## After the service has terminated -/

theorem closed_enqueue (t : task) (st : state) (h : closed st) (ht : t.quiet = true) :
    closed (enqueue_to_dispatcher t st) := by
  refine ⟨h.connection, h.service, ?_⟩
  intro t' ht'
  simp only [enqueue_to_dispatcher, List.mem_append, List.mem_singleton] at ht'
  rcases ht' with ht' | ht'
  · exact h.queue t' ht'
  · subst ht'; exact ht

theorem closed_observe (o : observation) (st : state) (h : closed st) :
    closed (observe o st) :=
  ⟨h.connection, h.service, h.queue⟩

/-- Running a quiet work item keeps `closed`. -/
theorem run_task_closed (D : declarations) (n : native) (t : task) (st : state)
    (h : closed st) (hquiet : t.quiet = true) : closed (run_task D n t st) := by
  cases t with
  | handler s =>
    cases s with
    | service_matched service_ptr => simp [task.quiet] at hquiet
    | received buffer sender =>
      simp only [run_task, run_handler]
      rcases received_effect D buffer sender st with e | ⟨o, _, e⟩ | ⟨t, ht, e⟩ <;> rw [e]
      · exact h
      · exact closed_observe o st h
      · exact closed_enqueue t st h ht
    | service_terminated =>
      simp only [run_task, run_handler, io_service_client.close_connection, h.connection]
      exact closed_observe _ _ ⟨rfl, rfl, h.queue⟩
    | ready_timer_ =>
      simp only [run_task, run_handler, virtual_hid_device_service_server.ready_timer_,
        io_service_client.async_virtual_hid_keyboard_ready,
        io_service_client.async_virtual_hid_pointing_ready]
      split_ifs
      · exact closed_enqueue _ _ (closed_enqueue _ _ h rfl) rfl
      · exact h
  | virtual_hid_keyboard_initialize country_code =>
    have e : run_task D n (task.virtual_hid_keyboard_initialize country_code) st = st := by
      simp [run_task, io_service_client.call_scalar_method, h.connection]
    rw [e]; exact h
  | call m =>
    have e : run_task D n (.call m) st = st := by
      simp [run_task, io_service_client.call, h.connection]
    rw [e]; exact h
  | post_report T report =>
    have e : run_task D n (.post_report T report) st = st := by
      simp [run_task, io_service_client.post_report, h.connection]
    rw [e]; exact h
  | virtual_hid_keyboard_ready =>
    have e : run_task D n .virtual_hid_keyboard_ready st
        = enqueue_to_dispatcher (.virtual_hid_keyboard_ready_callback Option.none) st := by
      simp [run_task, io_service_client.call_ready, h.connection]
    rw [e]; exact closed_enqueue _ _ h rfl
  | virtual_hid_pointing_ready =>
    have e : run_task D n .virtual_hid_pointing_ready st
        = enqueue_to_dispatcher (.virtual_hid_pointing_ready_callback Option.none) st := by
      simp [run_task, io_service_client.call_ready, h.connection]
    rw [e]; exact closed_enqueue _ _ h rfl
  | virtual_hid_keyboard_ready_callback ready =>
    simp only [run_task, virtual_hid_device_service_server.virtual_hid_keyboard_ready_callback]
    split_ifs
    · exact ⟨h.connection, h.service, h.queue⟩
    · exact h
  | virtual_hid_pointing_ready_callback ready =>
    simp only [run_task, virtual_hid_device_service_server.virtual_hid_pointing_ready_callback]
    split_ifs
    · exact ⟨h.connection, h.service, h.queue⟩
    · exact h

/-- An event other than the arrival of `service_matched` keeps `closed`. -/
theorem step_closed (D : declarations) (st : state) (e : event)
    (h : closed st) (he : e.no_match = true) : closed (step D st e) := by
  cases e with
  | emit s =>
    apply closed_enqueue _ _ h
    cases s <;> first | rfl | simp [event.no_match] at he
  | run n =>
    cases hq : st.queue with
    | nil => simp only [step, hq]; exact h
    | cons t q =>
      simp only [step, hq]
      apply run_task_closed
      · refine ⟨h.connection, h.service, ?_⟩
        intro t' ht'
        exact h.queue t' (by rw [hq]; exact List.mem_cons_of_mem _ ht')
      · exact h.queue t (by rw [hq]; exact List.mem_cons_self _ _)

/-- Only a delivery of the keyboard readiness changes the cached keyboard
readiness. -/
theorem run_task_keyboard (D : declarations) (n : native) (t : task) (st : state)
    (ht : t.is_keyboard_ready_callback = false) :
    (run_task D n t st).virtual_hid_keyboard_ready_ = st.virtual_hid_keyboard_ready_ := by
  cases t with
  | handler s =>
    cases s with
    | service_matched service_ptr => rw [service_matched_effect]
    | received buffer sender =>
      simp only [run_task, run_handler]
      rcases received_effect D buffer sender st with e | ⟨o, _, e⟩ | ⟨t, _, e⟩ <;> rw [e] <;> rfl
    | service_terminated =>
      simp only [run_task, run_handler, io_service_client.close_connection]
      split <;> rfl
    | ready_timer_ =>
      simp only [run_task, run_handler, virtual_hid_device_service_server.ready_timer_]
      split_ifs <;> rfl
  | virtual_hid_keyboard_initialize country_code =>
    simp only [run_task, io_service_client.call_scalar_method]
    split <;> rfl
  | call m =>
    simp only [run_task, io_service_client.call]
    split <;> rfl
  | post_report T report =>
    simp only [run_task, io_service_client.post_report]
    split <;> rfl
  | virtual_hid_keyboard_ready =>
    simp only [run_task, io_service_client.call_ready]
    split
    · rfl
    · split <;> rfl
  | virtual_hid_pointing_ready =>
    simp only [run_task, io_service_client.call_ready]
    split
    · rfl
    · split <;> rfl
  | virtual_hid_keyboard_ready_callback ready => simp [task.is_keyboard_ready_callback] at ht
  | virtual_hid_pointing_ready_callback ready =>
    simp only [run_task, virtual_hid_device_service_server.virtual_hid_pointing_ready_callback]
    split_ifs <;> rfl

/-- Only a delivery of the pointing readiness changes the cached pointing
readiness. -/
theorem run_task_pointing (D : declarations) (n : native) (t : task) (st : state)
    (ht : t.is_pointing_ready_callback = false) :
    (run_task D n t st).virtual_hid_pointing_ready_ = st.virtual_hid_pointing_ready_ := by
  cases t with
  | handler s =>
    cases s with
    | service_matched service_ptr => rw [service_matched_effect]
    | received buffer sender =>
      simp only [run_task, run_handler]
      rcases received_effect D buffer sender st with e | ⟨o, _, e⟩ | ⟨t, _, e⟩ <;> rw [e] <;> rfl
    | service_terminated =>
      simp only [run_task, run_handler, io_service_client.close_connection]
      split <;> rfl
    | ready_timer_ =>
      simp only [run_task, run_handler, virtual_hid_device_service_server.ready_timer_]
      split_ifs <;> rfl
  | virtual_hid_keyboard_initialize country_code =>
    simp only [run_task, io_service_client.call_scalar_method]
    split <;> rfl
  | call m =>
    simp only [run_task, io_service_client.call]
    split <;> rfl
  | post_report T report =>
    simp only [run_task, io_service_client.post_report]
    split <;> rfl
  | virtual_hid_keyboard_ready =>
    simp only [run_task, io_service_client.call_ready]
    split
    · rfl
    · split <;> rfl
  | virtual_hid_pointing_ready =>
    simp only [run_task, io_service_client.call_ready]
    split
    · rfl
    · split <;> rfl
  | virtual_hid_pointing_ready_callback ready => simp [task.is_pointing_ready_callback] at ht
  | virtual_hid_keyboard_ready_callback ready =>
    simp only [run_task, virtual_hid_device_service_server.virtual_hid_keyboard_ready_callback]
    split_ifs <;> rfl

/-- A quiet delivery sets the cached value to unknown. -/
theorem run_task_quiet_callback (D : declarations) (n : native) (t : task) (st : state)
    (hquiet : t.quiet = true) :
    (t.is_keyboard_ready_callback = true →
      (run_task D n t st).virtual_hid_keyboard_ready_ = Option.none) ∧
    (t.is_pointing_ready_callback = true →
      (run_task D n t st).virtual_hid_pointing_ready_ = Option.none) := by
  cases t with
  | virtual_hid_keyboard_ready_callback ready =>
    cases ready with
    | some b => simp [task.quiet] at hquiet
    | none =>
      refine ⟨fun _ => ?_, fun h => by simp [task.is_pointing_ready_callback] at h⟩
      simp only [run_task, virtual_hid_device_service_server.virtual_hid_keyboard_ready_callback]
      split_ifs with h
      · rfl
      · exact not_not.mp h
  | virtual_hid_pointing_ready_callback ready =>
    cases ready with
    | some b => simp [task.quiet] at hquiet
    | none =>
      refine ⟨fun h => by simp [task.is_keyboard_ready_callback] at h, fun _ => ?_⟩
      simp only [run_task, virtual_hid_device_service_server.virtual_hid_pointing_ready_callback]
      split_ifs with h
      · rfl
      · exact not_not.mp h
  | _ =>
    exact ⟨fun h => by simp [task.is_keyboard_ready_callback] at h,
      fun h => by simp [task.is_pointing_ready_callback] at h⟩

/-- While the Device Session is closed and no `service_matched` signal arrives,
each cached readiness value stays as it is until a delivery for its device
runs, and is unknown from then on. -/
theorem run_closed (D : declarations) (es : List event) :
    ∀ st, closed st → (∀ e ∈ es, e.no_match = true) →
      closed (run D st es) ∧
      (run D st es).virtual_hid_keyboard_ready_
        = (if (executed D st es).any task.is_keyboard_ready_callback then Option.none
          else st.virtual_hid_keyboard_ready_) ∧
      (run D st es).virtual_hid_pointing_ready_
        = (if (executed D st es).any task.is_pointing_ready_callback then Option.none
          else st.virtual_hid_pointing_ready_) := by
  induction es with
  | nil => intro st h _; exact ⟨h, by simp [run, executed], by simp [run, executed]⟩
  | cons e es ih =>
    intro st h hes
    have he := hes e (List.mem_cons_self _ _)
    obtain ⟨hc, hk, hp⟩ := ih (step D st e) (step_closed D st e h he)
      (fun e' he' => hes e' (List.mem_cons_of_mem _ he'))
    refine ⟨hc, ?_, ?_⟩
    · show (run D (step D st e) es).virtual_hid_keyboard_ready_ = _
      rw [hk]
      cases e with
      | emit s => simp [executed, step, enqueue_to_dispatcher]
      | run n =>
        cases hq : st.queue with
        | nil => simp [executed, step, hq]
        | cons t q =>
          have hquiet : t.quiet = true := h.queue t (by rw [hq]; exact List.mem_cons_self _ _)
          cases ht : t.is_keyboard_ready_callback with
          | true =>
            have := (run_task_quiet_callback D n t { st with queue := q } hquiet).1 ht
            simp [executed, step, hq, ht, this]
          | false =>
            have := run_task_keyboard D n t { st with queue := q } ht
            simp [executed, step, hq, ht, this]
    · show (run D (step D st e) es).virtual_hid_pointing_ready_ = _
      rw [hp]
      cases e with
      | emit s => simp [executed, step, enqueue_to_dispatcher]
      | run n =>
        cases hq : st.queue with
        | nil => simp [executed, step, hq]
        | cons t q =>
          have hquiet : t.quiet = true := h.queue t (by rw [hq]; exact List.mem_cons_self _ _)
          cases ht : t.is_pointing_ready_callback with
          | true =>
            have := (run_task_quiet_callback D n t { st with queue := q } hquiet).2 ht
            simp [executed, step, hq, ht, this]
          | false =>
            have := run_task_pointing D n t { st with queue := q } ht
            simp [executed, step, hq, ht, this]

/-- C8 (counterexample): after `ready_run`, the `service_terminated` signal
arrives and its handler runs; no `service_matched` signal follows.  The Device
Session is closed, but both cached readiness values are still true, and a
keyboard ready query that arrives next is answered with true. -/
theorem C8_counterexample :
    run declarations.sample state.initial
        (ready_run ++ [.emit .service_terminated, .run ⟨Option.none, Option.none⟩])
      = { state.initial with
          virtual_hid_keyboard_ready_ := some true
          virtual_hid_pointing_ready_ := some true
          trace :=
            [.IOServiceOpen 5 (some 9),
             .IOConnectCallScalarMethod 9 .virtual_hid_keyboard_ready [],
             .IOConnectCallScalarMethod 9 .virtual_hid_pointing_ready [],
             .log (.virtual_hid_keyboard_ready_changed (some true)),
             .log (.virtual_hid_pointing_ready_changed (some true)),
             .IOServiceClose 9,
             .async_invoke_service_matched] } ∧
    (run declarations.sample state.initial
        (ready_run ++ [.emit .service_terminated, .run ⟨Option.none, Option.none⟩,
          .emit (.received (some [3]) 7), .run ⟨Option.none, Option.none⟩])).trace.getLast?
      = some (.async_send [1, 1] 7) := by
  decide

/-! ## Readiness change notifications -/

/-- The last element of a list that has one does not depend on the default. -/
theorem getLast_getD_cons (w : Option Bool) (ws : List (Option Bool)) (a b : Option Bool) :
    (w :: ws).getLast?.getD a = (w :: ws).getLast?.getD b := by
  rw [List.getLast?_eq_getLast _ (List.cons_ne_nil _ _)]
  rfl

/-- One delivery of the keyboard readiness: the cache is the value delivered,
and one line is logged exactly when the value differs from the cache. -/
theorem keyboard_ready_callback_effect (v : Option Bool) (st : state) :
    virtual_hid_device_service_server.virtual_hid_keyboard_ready_callback v st
      = { st with
          virtual_hid_keyboard_ready_ := v
          trace := st.trace ++
            if v ≠ st.virtual_hid_keyboard_ready_ then
              [.log (.virtual_hid_keyboard_ready_changed v)]
            else [] } := by
  obtain ⟨s, c, ic, sv, kb, pt, q, tr⟩ := st
  by_cases h : kb = v
  · subst h
    simp [virtual_hid_device_service_server.virtual_hid_keyboard_ready_callback]
  · have h' : ¬ v = kb := fun e => h e.symm
    simp [virtual_hid_device_service_server.virtual_hid_keyboard_ready_callback, h, h',
      observe]

/-- One delivery of the pointing readiness: the cache is the value delivered,
and one line is logged exactly when the value differs from the cache. -/
theorem pointing_ready_callback_effect (v : Option Bool) (st : state) :
    virtual_hid_device_service_server.virtual_hid_pointing_ready_callback v st
      = { st with
          virtual_hid_pointing_ready_ := v
          trace := st.trace ++
            if v ≠ st.virtual_hid_pointing_ready_ then
              [.log (.virtual_hid_pointing_ready_changed v)]
            else [] } := by
  obtain ⟨s, c, ic, sv, kb, pt, q, tr⟩ := st
  by_cases h : pt = v
  · subst h
    simp [virtual_hid_device_service_server.virtual_hid_pointing_ready_callback]
  · have h' : ¬ v = pt := fun e => h e.symm
    simp [virtual_hid_device_service_server.virtual_hid_pointing_ready_callback, h, h',
      observe]

/-- The keyboard readiness values `vs` delivered one after the other log one
line for each value that differs from its predecessor. -/
theorem deliver_keyboard_effect (vs : List (Option Bool)) :
    ∀ st, deliver_keyboard vs st
      = { st with
          virtual_hid_keyboard_ready_ := vs.getLast?.getD st.virtual_hid_keyboard_ready_
          trace := st.trace ++ (changes st.virtual_hid_keyboard_ready_ vs).map
            (fun v => .log (.virtual_hid_keyboard_ready_changed v)) } := by
  induction vs with
  | nil => intro st; simp [deliver_keyboard, changes]
  | cons v vs ih =>
    intro st
    have e : deliver_keyboard (v :: vs) st = deliver_keyboard vs
        (virtual_hid_device_service_server.virtual_hid_keyboard_ready_callback v st) := rfl
    rw [e, ih, keyboard_ready_callback_effect]
    cases vs with
    | nil => simp only [changes]; split_ifs <;> simp
    | cons w ws =>
      have hl := getLast_getD_cons w ws v
      simp only [List.getLast?_cons_cons, changes, List.map_append, List.append_assoc]
      split_ifs <;> simp <;> exact hl _

/-- The pointing readiness values `vs` delivered one after the other log one
line for each value that differs from its predecessor. -/
theorem deliver_pointing_effect (vs : List (Option Bool)) :
    ∀ st, deliver_pointing vs st
      = { st with
          virtual_hid_pointing_ready_ := vs.getLast?.getD st.virtual_hid_pointing_ready_
          trace := st.trace ++ (changes st.virtual_hid_pointing_ready_ vs).map
            (fun v => .log (.virtual_hid_pointing_ready_changed v)) } := by
  induction vs with
  | nil => intro st; simp [deliver_pointing, changes]
  | cons v vs ih =>
    intro st
    have e : deliver_pointing (v :: vs) st = deliver_pointing vs
        (virtual_hid_device_service_server.virtual_hid_pointing_ready_callback v st) := rfl
    rw [e, ih, pointing_ready_callback_effect]
    cases vs with
    | nil => simp only [changes]; split_ifs <;> simp
    | cons w ws =>
      have hl := getLast_getD_cons w ws v
      simp only [List.getLast?_cons_cons, changes, List.map_append, List.append_assoc]
      split_ifs <;> simp <;> exact hl _

/-- C9: for each of the two devices, a delivery of a readiness value (unknown,
true or false) logs one change notification exactly when the value differs from
the cached value, and the cache afterwards is the value delivered; so a finite
sequence of deliveries logs one notification for each value that differs from
its predecessor (the predecessor of the first being the cache at the start, in
particular unknown), and two deliveries in a row of the same definite value,
starting from a cache of unknown, log exactly one notification. -/
theorem C9_change_notifications :
    (∀ (v : Option Bool) (st : state),
      virtual_hid_device_service_server.virtual_hid_keyboard_ready_callback v st
        = { st with
            virtual_hid_keyboard_ready_ := v
            trace := st.trace ++
              if v ≠ st.virtual_hid_keyboard_ready_ then
                [.log (.virtual_hid_keyboard_ready_changed v)]
              else [] }) ∧
    (∀ (vs : List (Option Bool)) (st : state),
      deliver_keyboard vs st
        = { st with
            virtual_hid_keyboard_ready_ := vs.getLast?.getD st.virtual_hid_keyboard_ready_
            trace := st.trace ++ (changes st.virtual_hid_keyboard_ready_ vs).map
              (fun v => .log (.virtual_hid_keyboard_ready_changed v)) }) ∧
    (∀ (b : Bool) (st : state),
      (deliver_keyboard [some b, some b]
          { st with virtual_hid_keyboard_ready_ := Option.none }).trace
        = st.trace ++ [.log (.virtual_hid_keyboard_ready_changed (some b))]) ∧
    (∀ (v : Option Bool) (st : state),
      virtual_hid_device_service_server.virtual_hid_pointing_ready_callback v st
        = { st with
            virtual_hid_pointing_ready_ := v
            trace := st.trace ++
              if v ≠ st.virtual_hid_pointing_ready_ then
                [.log (.virtual_hid_pointing_ready_changed v)]
              else [] }) ∧
    (∀ (vs : List (Option Bool)) (st : state),
      deliver_pointing vs st
        = { st with
            virtual_hid_pointing_ready_ := vs.getLast?.getD st.virtual_hid_pointing_ready_
            trace := st.trace ++ (changes st.virtual_hid_pointing_ready_ vs).map
              (fun v => .log (.virtual_hid_pointing_ready_changed v)) }) ∧
    (∀ (b : Bool) (st : state),
      (deliver_pointing [some b, some b]
          { st with virtual_hid_pointing_ready_ := Option.none }).trace
        = st.trace ++ [.log (.virtual_hid_pointing_ready_changed (some b))]) := by
  refine ⟨keyboard_ready_callback_effect, fun vs st => deliver_keyboard_effect vs st, ?_,
    pointing_ready_callback_effect, fun vs st => deliver_pointing_effect vs st, ?_⟩
  · intro b st
    rw [deliver_keyboard_effect]
    simp [changes]
  · intro b st
    rw [deliver_pointing_effect]
    simp [changes]

/-! ## Closing and opening the connection -/

/-- C11: `close_connection` is defined on every state (the result of
`IOServiceClose` is discarded, so nothing depends on it): afterwards the
connection handle and the service handle are both absent, `IOServiceClose` has
been called exactly once, on the connection that was open, if one was open,
and not at all otherwise, and nothing else has changed; closing twice gives
the same state, trace included, as closing once. -/
theorem C11_close_connection_idempotent (st : state) :
    io_service_client.close_connection st
      = { st with
          service_ := Option.none
          connection_ := Option.none
          trace := st.trace ++
            match st.connection_ with
            | some c => [observation.IOServiceClose c]
            | Option.none => [] } ∧
    io_service_client.close_connection (io_service_client.close_connection st)
      = io_service_client.close_connection st := by
  obtain ⟨sv, c, ic, srv, kb, pt, q, tr⟩ := st
  cases c <;> simp [io_service_client.close_connection, observe]

/-- C12 (counterexample): in the initial state both handles are absent; after
`open_connection` for service 5 with `IOServiceOpen` failing, no connection
handle is recorded, but the service handle is recorded as service 5. -/
theorem C12_counterexample :
    state.initial.connection_ = Option.none ∧
    state.initial.service_ = Option.none ∧
    io_service_client.open_connection 5 ⟨Option.none, Option.none⟩ state.initial
      = { state.initial with
          service_ := some 5
          trace := [.IOServiceOpen 5 Option.none, .log .IOServiceOpen_error] } := by
  decide

/-- C12 (amended): `open_connection` from a state without a connection handle
(in particular from the closed state) calls `IOServiceOpen` once for the given
service and records the service handle whether the call succeeds or fails; the
connection handle is recorded only when the call succeeds, and is then the
connection it gave; when the call fails, no connection handle is recorded, the
error is logged and the service handle stays recorded. -/
theorem C12_open_connection (s : Nat) (n : native) (st : state)
    (hc : st.connection_ = Option.none) :
    io_service_client.open_connection s n st
      = { st with
          service_ := some s
          connection_ := n.IOServiceOpen
          trace := st.trace ++
            match n.IOServiceOpen with
            | some c => [observation.IOServiceOpen s (some c)]
            | Option.none =>
              [observation.IOServiceOpen s Option.none, .log .IOServiceOpen_error] } := by
  obtain ⟨sv, c, ic, srv, kb, pt, q, tr⟩ := st
  obtain ⟨o, r⟩ := n
  simp only at hc
  subst hc
  cases o <;> simp [io_service_client.open_connection, observe]

/-- C12 (witness): from the initial state, an open of service 5 that succeeds
with connection 9. -/
theorem C12_open_connection_witness :
    io_service_client.open_connection 5 ⟨some 9, Option.none⟩ state.initial
      = { state.initial with
          service_ := some 5
          connection_ := some 9
          trace := [.IOServiceOpen 5 (some 9)] } :=
  C12_open_connection 5 ⟨some 9, Option.none⟩ state.initial rfl

/-! ## The handle invariant -/

/-- Every step of the Device Session keeps: a connection handle is present only
if a service handle is present. -/
theorem session_step_handles (D : declarations) (st : state) (x : session_step)
    (h : st.connection_ = Option.none ∨ st.service_ ≠ Option.none) :
    (x.apply D st).connection_ = Option.none ∨ (x.apply D st).service_ ≠ Option.none := by
  have hmatched : ∀ (service_ptr : Nat) (n : native),
      (run_handler D n (.service_matched service_ptr) st).service_ ≠ Option.none := by
    intro service_ptr n
    have e := service_matched_effect D n service_ptr st
    simp only [run_task] at e
    rw [e]
    simp
  have hterminated : ∀ n : native,
      (run_handler D n .service_terminated st).connection_ = Option.none := by
    intro n
    simp only [run_handler, io_service_client.close_connection]
    split <;> simp_all [observe]
  cases x with
  | open_connection s n =>
    simp only [session_step.apply, io_service_client.open_connection]
    split
    · exact h
    · split <;> exact Or.inr (by simp [observe])
  | close_connection =>
    left
    simp only [session_step.apply, io_service_client.close_connection]
    split <;> simp_all [observe]
  | service_matched service_ptr n => exact Or.inr (hmatched service_ptr n)
  | service_terminated n => exact Or.inl (hterminated n)
  | work n t =>
    cases ht : t.lifecycle with
    | false =>
      obtain ⟨hs, hc, _⟩ := run_task_inert D n t st ht
      simp only [session_step.apply]
      rw [hs, hc]
      exact h
    | true =>
      cases t with
      | handler s =>
        cases s with
        | service_matched service_ptr => exact Or.inr (hmatched service_ptr n)
        | service_terminated => exact Or.inl (hterminated n)
        | ready_timer_ => simp [task.lifecycle] at ht
        | received buffer sender => simp [task.lifecycle] at ht
      | _ => simp [task.lifecycle] at ht

/-- C13 (handle invariant): in every state reached from the initial state by a
finite sequence of calls of `open_connection` and `close_connection`, handlers
of `service_matched` and `service_terminated` and other work items of the
dispatcher, whatever `IOServiceOpen` gives each time (the result of
`IOServiceClose` is discarded), the connection handle is absent or the service
handle is present: a connection handle is present only if a service handle
is. -/
theorem C13_handle_invariant (D : declarations) (steps : List session_step) :
    (session_run D state.initial steps).connection_ = Option.none ∨
    (session_run D state.initial steps).service_ ≠ Option.none := by
  have key : ∀ (xs : List session_step) (st : state),
      (st.connection_ = Option.none ∨ st.service_ ≠ Option.none) →
      ((session_run D st xs).connection_ = Option.none ∨
        (session_run D st xs).service_ ≠ Option.none) := by
    intro xs
    induction xs with
    | nil => intro st h; exact h
    | cons x xs ih =>
      intro st h
      exact ih (x.apply D st) (session_step_handles D st x h)
  exact key steps state.initial (Or.inl rfl)

/-! ## Deliveries of the readiness and the dispatcher queue -/

/-- The `received` handler does one of three things: nothing, one observation
that is not a call of `IOServiceOpen` or `IOServiceClose`, one work item
enqueued that is neither a service monitor handler nor a delivery of a
readiness value. -/
theorem received_enqueues (D : declarations) (buffer : Option (List Nat)) (sender : Nat)
    (st : state) :
    virtual_hid_device_service_server.received D buffer sender st = st ∨
    (∃ o, o.lifecycle = false ∧
      virtual_hid_device_service_server.received D buffer sender st = observe o st) ∨
    (∃ t, keyboard_deliveries [t] = [] ∧ pointing_deliveries [t] = [] ∧
      virtual_hid_device_service_server.received D buffer sender st
        = enqueue_to_dispatcher t st) := by
  rcases buffer with _ | _ | ⟨b, bs⟩
  · exact Or.inl rfl
  · exact Or.inl rfl
  · cases hreq : D.to_request b with
    | none =>
      simp only [virtual_hid_device_service_server.received, hreq]
      exact Or.inl trivial
    | some t =>
      cases t <;>
        simp only [virtual_hid_device_service_server.received, hreq,
          virtual_hid_device_service_server.async_send_ready_result,
          virtual_hid_device_service_server.async_post_report,
          io_service_client.async_virtual_hid_keyboard_initialize,
          io_service_client.async_virtual_hid_keyboard_terminate,
          io_service_client.async_virtual_hid_keyboard_reset,
          io_service_client.async_virtual_hid_pointing_initialize,
          io_service_client.async_virtual_hid_pointing_terminate,
          io_service_client.async_virtual_hid_pointing_reset,
          io_service_client.async_post_report] <;>
        (try split_ifs) <;>
        (try split) <;>
        first
          | exact Or.inl trivial
          | exact Or.inl rfl
          | exact Or.inr (Or.inl ⟨_, by rfl, rfl⟩)
          | exact Or.inr (Or.inr ⟨_, by rfl, by rfl, rfl⟩)

/-- A work item only appends to the dispatcher queue, and only a readiness query
appends a delivery of that readiness. -/
theorem run_task_enqueues (D : declarations) (n : native) (t : task) (st : state) :
    ∃ ts, (run_task D n t st).queue = st.queue ++ ts ∧
      (t ≠ .virtual_hid_keyboard_ready → keyboard_deliveries ts = []) ∧
      (t ≠ .virtual_hid_pointing_ready → pointing_deliveries ts = []) := by
  cases t with
  | handler s =>
    cases s with
    | service_matched service_ptr =>
      exact ⟨[], by rw [service_matched_effect]; simp, fun _ => rfl, fun _ => rfl⟩
    | service_terminated =>
      refine ⟨[], ?_, fun _ => rfl, fun _ => rfl⟩
      simp only [run_task, run_handler, io_service_client.close_connection]
      split <;> simp [observe]
    | ready_timer_ =>
      simp only [run_task, run_handler, virtual_hid_device_service_server.ready_timer_,
        io_service_client.async_virtual_hid_keyboard_ready,
        io_service_client.async_virtual_hid_pointing_ready, enqueue_to_dispatcher]
      split_ifs
      · exact ⟨[.virtual_hid_keyboard_ready, .virtual_hid_pointing_ready], by simp,
          fun _ => rfl, fun _ => rfl⟩
      · exact ⟨[], by simp, fun _ => rfl, fun _ => rfl⟩
    | received buffer sender =>
      simp only [run_task, run_handler]
      rcases received_enqueues D buffer sender st with e | ⟨o, _, e⟩ | ⟨t, hk, hp, e⟩ <;> rw [e]
      · exact ⟨[], by simp, fun _ => rfl, fun _ => rfl⟩
      · exact ⟨[], by simp [observe], fun _ => rfl, fun _ => rfl⟩
      · exact ⟨[t], rfl, fun _ => hk, fun _ => hp⟩
  | virtual_hid_keyboard_initialize country_code =>
    refine ⟨[], ?_, fun _ => rfl, fun _ => rfl⟩
    simp only [run_task, io_service_client.call_scalar_method]
    split <;> simp [observe]
  | call m =>
    refine ⟨[], ?_, fun _ => rfl, fun _ => rfl⟩
    simp only [run_task, io_service_client.call]
    split <;> simp [observe]
  | post_report T report =>
    refine ⟨[], ?_, fun _ => rfl, fun _ => rfl⟩
    simp only [run_task, io_service_client.post_report]
    split <;> simp [observe]
  | virtual_hid_keyboard_ready =>
    refine ⟨[.virtual_hid_keyboard_ready_callback
      (io_service_client.call_ready .virtual_hid_keyboard_ready n st).2], ?_,
      fun h => absurd rfl h, fun _ => rfl⟩
    simp only [run_task, io_service_client.call_ready, enqueue_to_dispatcher]
    split
    · rfl
    · split <;> rfl
  | virtual_hid_pointing_ready =>
    refine ⟨[.virtual_hid_pointing_ready_callback
      (io_service_client.call_ready .virtual_hid_pointing_ready n st).2], ?_,
      fun _ => rfl, fun h => absurd rfl h⟩
    simp only [run_task, io_service_client.call_ready, enqueue_to_dispatcher]
    split
    · rfl
    · split <;> rfl
  | virtual_hid_keyboard_ready_callback ready =>
    refine ⟨[], ?_, fun _ => rfl, fun _ => rfl⟩
    rw [show run_task D n (.virtual_hid_keyboard_ready_callback ready) st
      = virtual_hid_device_service_server.virtual_hid_keyboard_ready_callback ready st from rfl,
      keyboard_ready_callback_effect]
    simp
  | virtual_hid_pointing_ready_callback ready =>
    refine ⟨[], ?_, fun _ => rfl, fun _ => rfl⟩
    rw [show run_task D n (.virtual_hid_pointing_ready_callback ready) st
      = virtual_hid_device_service_server.virtual_hid_pointing_ready_callback ready st from rfl,
      pointing_ready_callback_effect]
    simp

/-- Without a connection a readiness query enqueues a delivery of unknown and
does nothing else. -/
theorem run_task_query_closed (D : declarations) (n : native) (st : state)
    (hc : st.connection_ = Option.none) :
    run_task D n .virtual_hid_keyboard_ready st
      = enqueue_to_dispatcher (.virtual_hid_keyboard_ready_callback Option.none) st ∧
    run_task D n .virtual_hid_pointing_ready st
      = enqueue_to_dispatcher (.virtual_hid_pointing_ready_callback Option.none) st := by
  constructor <;> simp [run_task, io_service_client.call_ready, hc]

/-- A work item other than the `service_matched` handler, run while both handles
are absent, leaves both handles absent. -/
theorem run_task_handles_absent (D : declarations) (n : native) (t : task) (st : state)
    (hc : st.connection_ = Option.none) (hs : st.service_ = Option.none)
    (ht : t.is_service_matched = false) :
    (run_task D n t st).connection_ = Option.none ∧
    (run_task D n t st).service_ = Option.none := by
  cases hl : t.lifecycle with
  | false =>
    obtain ⟨hs', hc', _⟩ := run_task_inert D n t st hl
    exact ⟨hc'.trans hc, hs'.trans hs⟩
  | true =>
    cases t with
    | handler s =>
      cases s with
      | service_matched service_ptr => simp [task.is_service_matched] at ht
      | service_terminated =>
        simp [run_task, run_handler, io_service_client.close_connection, hc, observe]
      | ready_timer_ => simp [task.lifecycle] at hl
      | received buffer sender => simp [task.lifecycle] at hl
    | _ => simp [task.lifecycle] at hl

/-- A work item that is not a delivery of the keyboard readiness adds nothing to
the keyboard deliveries of a list. -/
theorem keyboard_deliveries_cons_other (t : task) (ts : List task)
    (ht : t.is_keyboard_ready_callback = false) :
    keyboard_deliveries (t :: ts) = keyboard_deliveries ts := by
  cases t <;> simp_all [keyboard_deliveries, task.is_keyboard_ready_callback]

/-- The cached keyboard readiness after any run is the value carried by the last
delivery of the keyboard readiness that ran, and the value from before the run
if none ran. -/
theorem run_keyboard_cache (D : declarations) (es : List event) :
    ∀ st, (run D st es).virtual_hid_keyboard_ready_
      = (keyboard_deliveries (executed D st es)).getLast?.getD
          st.virtual_hid_keyboard_ready_ := by
  induction es with
  | nil => intro st; simp [run, executed, keyboard_deliveries]
  | cons e es ih =>
    intro st
    rw [show run D st (e :: es) = run D (step D st e) es from rfl, ih]
    cases e with
    | emit s => simp [executed, step, enqueue_to_dispatcher]
    | run n =>
      cases hq : st.queue with
      | nil => simp [executed, step, hq]
      | cons t q =>
        cases ht : t.is_keyboard_ready_callback with
        | false =>
          have h1 := run_task_keyboard D n t { st with queue := q } ht
          have h2 := keyboard_deliveries_cons_other t (executed D (step D st (.run n)) es) ht
          simp only [executed, hq, List.singleton_append, h2]
          simp only [step, hq, h1]
        | true =>
          cases t with
          | virtual_hid_keyboard_ready_callback v =>
            have h1 : (step D st (.run n)).virtual_hid_keyboard_ready_ = v := by
              simp only [step, hq, run_task, keyboard_ready_callback_effect]
            simp only [executed, hq, List.singleton_append, h1]
            simp [keyboard_deliveries, List.getLast?_cons]
          | _ => simp [task.is_keyboard_ready_callback] at ht

/-- While both handles are absent and no `service_matched` handler runs, the
deliveries of the keyboard readiness that have run, followed by those still
queued, are the deliveries that were queued at the start followed by
deliveries of unknown only. -/
theorem run_keyboard_deliveries (D : declarations) (es : List event) :
    ∀ st, st.connection_ = Option.none → st.service_ = Option.none →
      (∀ t ∈ executed D st es, t.is_service_matched = false) →
      ∃ m, keyboard_deliveries (executed D st es) ++ keyboard_deliveries (run D st es).queue
        = keyboard_deliveries st.queue ++ List.replicate m Option.none := by
  induction es with
  | nil => intro st _ _ _; exact ⟨0, by simp [run, executed, keyboard_deliveries]⟩
  | cons e es ih =>
    intro st hc hs hes
    have hrun : run D st (e :: es) = run D (step D st e) es := rfl
    cases e with
    | emit s =>
      have hes' : ∀ t ∈ executed D (step D st (.emit s)) es, t.is_service_matched = false := by
        intro t ht
        exact hes t (by simp only [executed, List.nil_append]; exact ht)
      obtain ⟨m, hm⟩ := ih (step D st (.emit s)) hc hs hes'
      refine ⟨m, ?_⟩
      rw [hrun]
      simp only [executed, List.nil_append]
      rw [hm]
      simp [step, enqueue_to_dispatcher, keyboard_deliveries]
    | run n =>
      cases hq : st.queue with
      | nil =>
        have hstep : step D st (.run n) = st := by simp [step, hq]
        have hes' : ∀ t ∈ executed D st es, t.is_service_matched = false := by
          intro t ht
          exact hes t (by simp only [executed, hq, List.nil_append, hstep]; exact ht)
        obtain ⟨m, hm⟩ := ih st hc hs hes'
        refine ⟨m, ?_⟩
        rw [hrun]
        simp only [executed, hq, List.nil_append, hstep]
        rw [hm, hq]
      | cons t q =>
        have hstep : step D st (.run n) = run_task D n t { st with queue := q } := by
          simp [step, hq]
        have hex : executed D st (.run n :: es)
            = t :: executed D (run_task D n t { st with queue := q }) es := by
          simp [executed, hq, hstep]
        have htm : t.is_service_matched = false := hes t (by rw [hex]; exact List.mem_cons_self _ _)
        have hes' : ∀ t' ∈ executed D (run_task D n t { st with queue := q }) es,
            t'.is_service_matched = false := by
          intro t' ht'
          exact hes t' (by rw [hex]; exact List.mem_cons_of_mem _ ht')
        obtain ⟨hc', hs'⟩ := run_task_handles_absent D n t { st with queue := q } hc hs htm
        obtain ⟨m, hm⟩ := ih (run_task D n t { st with queue := q }) hc' hs' hes'
        rw [hrun, hstep, hex]
        by_cases hquery : t = .virtual_hid_keyboard_ready
        · subst hquery
          refine ⟨m + 1, ?_⟩
          rw [keyboard_deliveries_cons_other task.virtual_hid_keyboard_ready _ rfl, hm,
            (run_task_query_closed D n { st with queue := q } hc).1]
          simp [enqueue_to_dispatcher, keyboard_deliveries, List.replicate_succ]
        · obtain ⟨ts, hts, hk, _⟩ := run_task_enqueues D n t { st with queue := q }
          have hts' : keyboard_deliveries (run_task D n t { st with queue := q }).queue
              = keyboard_deliveries q := by
            rw [hts]
            simp only [keyboard_deliveries, List.filterMap_append]
            have := hk hquery
            simp only [keyboard_deliveries] at this
            rw [this, List.append_nil]
          refine ⟨m, ?_⟩
          cases ht : t.is_keyboard_ready_callback with
          | false =>
            rw [keyboard_deliveries_cons_other _ _ ht, hm, hts',
              keyboard_deliveries_cons_other _ _ ht]
          | true =>
            cases t with
            | virtual_hid_keyboard_ready_callback v =>
              have e1 : ∀ l, keyboard_deliveries (.virtual_hid_keyboard_ready_callback v :: l)
                  = v :: keyboard_deliveries l := fun _ => rfl
              rw [e1, e1, List.cons_append, hm, hts', List.cons_append]
            | _ => simp [task.is_keyboard_ready_callback] at ht

/-- Once more deliveries of the keyboard readiness have run than were queued at
the start, the last one that ran carried unknown. -/
theorem last_delivery_unknown (vals rest pending : List (Option Bool)) (m : Nat)
    (h : vals ++ rest = pending ++ List.replicate m Option.none)
    (hlen : pending.length < vals.length) :
    vals.getLast? = some Option.none := by
  have hl : vals.length + rest.length = pending.length + m := by
    have := congrArg List.length h
    simpa using this
  have h1 : vals[vals.length - 1]? = (vals ++ rest)[vals.length - 1]? :=
    (List.getElem?_append_left (by omega)).symm
  rw [List.getLast?_eq_getElem?, h1, h, List.getElem?_append_right (by omega),
    List.getElem?_replicate, if_pos (by omega)]

/-- A work item that is not a delivery of the pointing readiness adds nothing to
the pointing deliveries of a list. -/
theorem pointing_deliveries_cons_other (t : task) (ts : List task)
    (ht : t.is_pointing_ready_callback = false) :
    pointing_deliveries (t :: ts) = pointing_deliveries ts := by
  cases t <;> simp_all [pointing_deliveries, task.is_pointing_ready_callback]

/-- The cached pointing readiness after any run is the value carried by the last
delivery of the pointing readiness that ran, and the value from before the run
if none ran. -/
theorem run_pointing_cache (D : declarations) (es : List event) :
    ∀ st, (run D st es).virtual_hid_pointing_ready_
      = (pointing_deliveries (executed D st es)).getLast?.getD
          st.virtual_hid_pointing_ready_ := by
  induction es with
  | nil => intro st; simp [run, executed, pointing_deliveries]
  | cons e es ih =>
    intro st
    rw [show run D st (e :: es) = run D (step D st e) es from rfl, ih]
    cases e with
    | emit s => simp [executed, step, enqueue_to_dispatcher]
    | run n =>
      cases hq : st.queue with
      | nil => simp [executed, step, hq]
      | cons t q =>
        cases ht : t.is_pointing_ready_callback with
        | false =>
          have h1 := run_task_pointing D n t { st with queue := q } ht
          have h2 := pointing_deliveries_cons_other t (executed D (step D st (.run n)) es) ht
          simp only [executed, hq, List.singleton_append, h2]
          simp only [step, hq, h1]
        | true =>
          cases t with
          | virtual_hid_pointing_ready_callback v =>
            have h1 : (step D st (.run n)).virtual_hid_pointing_ready_ = v := by
              simp only [step, hq, run_task, pointing_ready_callback_effect]
            simp only [executed, hq, List.singleton_append, h1]
            simp [pointing_deliveries, List.getLast?_cons]
          | _ => simp [task.is_pointing_ready_callback] at ht

/-- While both handles are absent and no `service_matched` handler runs, the
deliveries of the pointing readiness that have run, followed by those still
queued, are the deliveries that were queued at the start followed by
deliveries of unknown only. -/
theorem run_pointing_deliveries (D : declarations) (es : List event) :
    ∀ st, st.connection_ = Option.none → st.service_ = Option.none →
      (∀ t ∈ executed D st es, t.is_service_matched = false) →
      ∃ m, pointing_deliveries (executed D st es) ++ pointing_deliveries (run D st es).queue
        = pointing_deliveries st.queue ++ List.replicate m Option.none := by
  induction es with
  | nil => intro st _ _ _; exact ⟨0, by simp [run, executed, pointing_deliveries]⟩
  | cons e es ih =>
    intro st hc hs hes
    have hrun : run D st (e :: es) = run D (step D st e) es := rfl
    cases e with
    | emit s =>
      have hes' : ∀ t ∈ executed D (step D st (.emit s)) es, t.is_service_matched = false := by
        intro t ht
        exact hes t (by simp only [executed, List.nil_append]; exact ht)
      obtain ⟨m, hm⟩ := ih (step D st (.emit s)) hc hs hes'
      refine ⟨m, ?_⟩
      rw [hrun]
      simp only [executed, List.nil_append]
      rw [hm]
      simp [step, enqueue_to_dispatcher, pointing_deliveries]
    | run n =>
      cases hq : st.queue with
      | nil =>
        have hstep : step D st (.run n) = st := by simp [step, hq]
        have hes' : ∀ t ∈ executed D st es, t.is_service_matched = false := by
          intro t ht
          exact hes t (by simp only [executed, hq, List.nil_append, hstep]; exact ht)
        obtain ⟨m, hm⟩ := ih st hc hs hes'
        refine ⟨m, ?_⟩
        rw [hrun]
        simp only [executed, hq, List.nil_append, hstep]
        rw [hm, hq]
      | cons t q =>
        have hstep : step D st (.run n) = run_task D n t { st with queue := q } := by
          simp [step, hq]
        have hex : executed D st (.run n :: es)
            = t :: executed D (run_task D n t { st with queue := q }) es := by
          simp [executed, hq, hstep]
        have htm : t.is_service_matched = false := hes t (by rw [hex]; exact List.mem_cons_self _ _)
        have hes' : ∀ t' ∈ executed D (run_task D n t { st with queue := q }) es,
            t'.is_service_matched = false := by
          intro t' ht'
          exact hes t' (by rw [hex]; exact List.mem_cons_of_mem _ ht')
        obtain ⟨hc', hs'⟩ := run_task_handles_absent D n t { st with queue := q } hc hs htm
        obtain ⟨m, hm⟩ := ih (run_task D n t { st with queue := q }) hc' hs' hes'
        rw [hrun, hstep, hex]
        by_cases hquery : t = .virtual_hid_pointing_ready
        · subst hquery
          refine ⟨m + 1, ?_⟩
          rw [pointing_deliveries_cons_other task.virtual_hid_pointing_ready _ rfl, hm,
            (run_task_query_closed D n { st with queue := q } hc).2]
          simp [enqueue_to_dispatcher, pointing_deliveries, List.replicate_succ]
        · obtain ⟨ts, hts, _, hk⟩ := run_task_enqueues D n t { st with queue := q }
          have hts' : pointing_deliveries (run_task D n t { st with queue := q }).queue
              = pointing_deliveries q := by
            rw [hts]
            simp only [pointing_deliveries, List.filterMap_append]
            have := hk hquery
            simp only [pointing_deliveries] at this
            rw [this, List.append_nil]
          refine ⟨m, ?_⟩
          cases ht : t.is_pointing_ready_callback with
          | false =>
            rw [pointing_deliveries_cons_other _ _ ht, hm, hts',
              pointing_deliveries_cons_other _ _ ht]
          | true =>
            cases t with
            | virtual_hid_pointing_ready_callback v =>
              have e1 : ∀ l, pointing_deliveries (.virtual_hid_pointing_ready_callback v :: l)
                  = v :: pointing_deliveries l := fun _ => rfl
              rw [e1, e1, List.cons_append, hm, hts', List.cons_append]
            | _ => simp [task.is_pointing_ready_callback] at ht

/-- The `service_terminated` handler: whatever connection is open is closed,
both handles are absent afterwards, the service monitor is asked to replay its
matches, and nothing else changes. -/
theorem service_terminated_effect (D : declarations) (n : native) (st : state) :
    run_task D n (.handler .service_terminated) st
      = { st with
          service_ := Option.none
          connection_ := Option.none
          trace := st.trace ++ (st.connection_.toList.map observation.IOServiceClose
            ++ [observation.async_invoke_service_matched]) } := by
  obtain ⟨sv, c, ic, srv, kb, pt, q, tr⟩ := st
  cases c <;> simp [run_task, run_handler, io_service_client.close_connection, observe]

/-- While both handles are absent and no `service_matched` handler runs, both
handles stay absent. -/
theorem run_handles_absent (D : declarations) (es : List event) :
    ∀ st, st.connection_ = Option.none → st.service_ = Option.none →
      (∀ t ∈ executed D st es, t.is_service_matched = false) →
      (run D st es).connection_ = Option.none ∧ (run D st es).service_ = Option.none := by
  induction es with
  | nil => intro st hc hs _; exact ⟨hc, hs⟩
  | cons e es ih =>
    intro st hc hs hes
    have hrun : run D st (e :: es) = run D (step D st e) es := rfl
    rw [hrun]
    cases e with
    | emit s =>
      exact ih _ hc hs (fun t ht => hes t (by simp only [executed, List.nil_append]; exact ht))
    | run n =>
      cases hq : st.queue with
      | nil =>
        have hstep : step D st (.run n) = st := by simp [step, hq]
        rw [hstep]
        exact ih st hc hs
          (fun t ht => hes t (by simp only [executed, hq, List.nil_append, hstep]; exact ht))
      | cons t q =>
        have hstep : step D st (.run n) = run_task D n t { st with queue := q } := by
          simp [step, hq]
        have hex : executed D st (.run n :: es)
            = t :: executed D (run_task D n t { st with queue := q }) es := by
          simp [executed, hq, hstep]
        obtain ⟨hc', hs'⟩ := run_task_handles_absent D n t { st with queue := q } hc hs
          (hes t (by rw [hex]; exact List.mem_cons_self _ _))
        rw [hstep]
        exact ih _ hc' hs' (fun t' ht' => hes t' (by rw [hex]; exact List.mem_cons_of_mem _ ht'))

/-! ## After the service has terminated: the cached readiness -/

/-- C8 (amended): from any state, once the `service_terminated` handler has run
and for as long as no `service_matched` handler runs (whatever timer ticks and
datagrams arrive and whatever else the dispatcher runs), the Device Session is
closed: no connection handle and no service handle.  The close does not reset
the cached readiness values.  For each device, the cached value is the value
carried by the last delivery of the Readiness Poller that has run since the
termination, and the value from before the termination while none has run;
the deliveries that have run, followed by those still queued, are the
deliveries that were queued when the termination was handled followed by
deliveries of unknown only; so the cached value is unknown as soon as more
deliveries have run than were queued when the termination was handled. -/
theorem C8_after_terminated (D : declarations) (st : state) (n : native) (es : List event)
    (hes : ∀ t ∈ executed D (run_task D n (.handler .service_terminated) st) es,
      t.is_service_matched = false) :
    (run D (run_task D n (.handler .service_terminated) st) es).connection_ = Option.none ∧
    (run D (run_task D n (.handler .service_terminated) st) es).service_ = Option.none ∧
    (run D (run_task D n (.handler .service_terminated) st) es).virtual_hid_keyboard_ready_
      = (keyboard_deliveries
          (executed D (run_task D n (.handler .service_terminated) st) es)).getLast?.getD
          st.virtual_hid_keyboard_ready_ ∧
    (∃ m, keyboard_deliveries (executed D (run_task D n (.handler .service_terminated) st) es)
        ++ keyboard_deliveries
          (run D (run_task D n (.handler .service_terminated) st) es).queue
      = keyboard_deliveries st.queue ++ List.replicate m Option.none) ∧
    ((keyboard_deliveries st.queue).length
        < (keyboard_deliveries
            (executed D (run_task D n (.handler .service_terminated) st) es)).length →
      (run D (run_task D n (.handler .service_terminated) st) es).virtual_hid_keyboard_ready_
        = Option.none) ∧
    (run D (run_task D n (.handler .service_terminated) st) es).virtual_hid_pointing_ready_
      = (pointing_deliveries
          (executed D (run_task D n (.handler .service_terminated) st) es)).getLast?.getD
          st.virtual_hid_pointing_ready_ ∧
    (∃ m, pointing_deliveries (executed D (run_task D n (.handler .service_terminated) st) es)
        ++ pointing_deliveries
          (run D (run_task D n (.handler .service_terminated) st) es).queue
      = pointing_deliveries st.queue ++ List.replicate m Option.none) ∧
    ((pointing_deliveries st.queue).length
        < (pointing_deliveries
            (executed D (run_task D n (.handler .service_terminated) st) es)).length →
      (run D (run_task D n (.handler .service_terminated) st) es).virtual_hid_pointing_ready_
        = Option.none) := by
  have h0 := service_terminated_effect D n st
  have hc0 : (run_task D n (.handler .service_terminated) st).connection_ = Option.none := by
    rw [h0]
  have hs0 : (run_task D n (.handler .service_terminated) st).service_ = Option.none := by
    rw [h0]
  have hq0 : (run_task D n (.handler .service_terminated) st).queue = st.queue := by
    rw [h0]
  have hk0 : (run_task D n (.handler .service_terminated) st).virtual_hid_keyboard_ready_
      = st.virtual_hid_keyboard_ready_ := by rw [h0]
  have hp0 : (run_task D n (.handler .service_terminated) st).virtual_hid_pointing_ready_
      = st.virtual_hid_pointing_ready_ := by rw [h0]
  obtain ⟨hc, hs⟩ := run_handles_absent D es _ hc0 hs0 hes
  have hkc := run_keyboard_cache D es (run_task D n (.handler .service_terminated) st)
  have hpc := run_pointing_cache D es (run_task D n (.handler .service_terminated) st)
  obtain ⟨mk, hmk⟩ := run_keyboard_deliveries D es _ hc0 hs0 hes
  obtain ⟨mp, hmp⟩ := run_pointing_deliveries D es _ hc0 hs0 hes
  rw [hq0] at hmk hmp
  rw [hk0] at hkc
  rw [hp0] at hpc
  refine ⟨hc, hs, hkc, ⟨mk, hmk⟩, ?_, hpc, ⟨mp, hmp⟩, ?_⟩
  · intro hlen
    rw [hkc, last_delivery_unknown _ _ _ mk hmk hlen]
    rfl
  · intro hlen
    rw [hpc, last_delivery_unknown _ _ _ mp hmp hlen]
    rfl

/-- C8 (witness): `race_run` leads from the initial state to the
`service_terminated` handler at the head of the queue with a delivery of true
queued behind it for each device.  The handler runs, the two queued deliveries
run, then the timer fires and its work items run; more keyboard deliveries
have then run than were queued at the termination, and the cached keyboard
readiness is unknown. -/
theorem C8_after_terminated_witness :
    run declarations.sample state.initial race_run
      = { race_state with queue := .handler .service_terminated :: race_state.queue } ∧
    (run declarations.sample
      (run_task declarations.sample ⟨Option.none, Option.none⟩ (.handler .service_terminated)
        race_state)
      [.run ⟨Option.none, Option.none⟩, .run ⟨Option.none, Option.none⟩,
       .emit .ready_timer_, .run ⟨Option.none, Option.none⟩,
       .run ⟨Option.none, some 1⟩, .run ⟨Option.none, some 1⟩,
       .run ⟨Option.none, Option.none⟩,
       .run ⟨Option.none, Option.none⟩]).virtual_hid_keyboard_ready_ = Option.none :=
  ⟨by decide,
    (C8_after_terminated declarations.sample race_state ⟨Option.none, Option.none⟩
      [.run ⟨Option.none, Option.none⟩, .run ⟨Option.none, Option.none⟩,
       .emit .ready_timer_, .run ⟨Option.none, Option.none⟩,
       .run ⟨Option.none, some 1⟩, .run ⟨Option.none, some 1⟩,
       .run ⟨Option.none, Option.none⟩, .run ⟨Option.none, Option.none⟩]
      (by decide)).2.2.2.2.1 (by decide)⟩

/-! ## Report routing -/

/-- The dispatcher is FIFO: a work item queued behind work items that are not
service monitor handlers is at the head of the queue once the dispatcher has
run as many times as there were work items ahead of it, and the connection
that was open is still open then. -/
theorem run_reaches_queued (D : declarations) (es : List event) :
    ∀ (st : state) (pre : List task) (l : task) (post : List task) (c : Nat),
      st.queue = pre ++ l :: post → (∀ t ∈ pre, t.lifecycle = false) →
      st.connection_ = some c → es.countP event.is_run = pre.length →
      ∃ post', (run D st es).queue = l :: post' ∧ (run D st es).connection_ = some c := by
  induction es with
  | nil =>
    intro st pre l post c hq _ hc hcount
    have hpre : pre = [] := List.length_eq_zero.mp (by simpa using hcount.symm)
    subst hpre
    exact ⟨post, hq, hc⟩
  | cons e es ih =>
    intro st pre l post c hq hpre hc hcount
    have hrun : run D st (e :: es) = run D (step D st e) es := rfl
    rw [hrun]
    cases e with
    | emit s =>
      refine ih (step D st (.emit s)) pre l (post ++ [.handler s]) c ?_ hpre hc ?_
      · simp [step, enqueue_to_dispatcher, hq]
      · simpa [List.countP_cons, event.is_run] using hcount
    | run n =>
      cases pre with
      | nil => simp [List.countP_cons, event.is_run] at hcount
      | cons t pre' =>
        have hq' : st.queue = t :: (pre' ++ l :: post) := by simpa using hq
        have hstep : step D st (.run n)
            = run_task D n t { st with queue := pre' ++ l :: post } := by
          simp [step, hq']
        obtain ⟨ts, hts, _, _⟩ := run_task_enqueues D n t { st with queue := pre' ++ l :: post }
        obtain ⟨_, hc', _⟩ := run_task_inert D n t { st with queue := pre' ++ l :: post }
          (hpre t (List.mem_cons_self _ _))
        rw [hstep]
        refine ih _ pre' l (post ++ ts) c ?_
          (fun t' ht' => hpre t' (List.mem_cons_of_mem _ ht')) (hc'.trans hc) ?_
        · rw [hts]; simp
        · simpa [List.countP_cons, event.is_run] using hcount

/-- C10 (counterexample): service 5 is matched and opened as connection 9; a
post-pointing-report datagram with a payload of the right size and then the
`service_terminated` signal arrive.  The datagram is handled while connection
9 is open, but the `service_terminated` handler is queued ahead of the
`post_report` lambda and closes the connection before the lambda runs: the
whole run makes no struct-method call. -/
theorem C10_counterexample :
    (run declarations.sample state.initial
      [.emit (.service_matched 5), .run ⟨some 9, Option.none⟩,
       .emit (.received (some [13, 1, 0, 0, 0, 5, 6, 0, 0]) 7),
       .emit .service_terminated]).connection_ = some 9 ∧
    (run declarations.sample state.initial
      [.emit (.service_matched 5), .run ⟨some 9, Option.none⟩,
       .emit (.received (some [13, 1, 0, 0, 0, 5, 6, 0, 0]) 7),
       .emit .service_terminated,
       .run ⟨Option.none, Option.none⟩]).queue
      = [.handler .service_terminated,
         .post_report .pointing_input [13, 1, 0, 0, 0, 5, 6, 0]] ∧
    run declarations.sample state.initial
      [.emit (.service_matched 5), .run ⟨some 9, Option.none⟩,
       .emit (.received (some [13, 1, 0, 0, 0, 5, 6, 0, 0]) 7),
       .emit .service_terminated,
       .run ⟨Option.none, Option.none⟩, .run ⟨Option.none, Option.none⟩,
       .run ⟨Option.none, Option.none⟩]
      = { state.initial with
          trace := [.IOServiceOpen 5 (some 9), .IOServiceClose 9,
                    .async_invoke_service_matched] } := by
  decide

/-- C10 (amended): a post-report datagram with a payload of the size of its
report structure, handled while there is a Device Session, enqueues exactly
one `post_report` lambda and sends nothing.  When that lambda runs it makes
exactly one struct-method call if a connection is open at that moment, on that
connection, and no call if none is open; the method is
`virtual_hid_pointing_post_report` for the pointing report and
`virtual_hid_keyboard_post_report` for the four other reports, and the byte
count is the size of the report structure.  If a connection is open when the
datagram is handled and no `service_matched` or `service_terminated` handler
is queued at that moment, then, whatever arrives meanwhile, once the
dispatcher has run the work items that were queued the lambda is at the head
of the queue and the next run makes the call on that connection. -/
theorem C10_report_routing (D : declarations) (t : request) (T : hid_report)
    (payload : List Nat) (sender : Nat) (st : state)
    (ht : t.report = some T) (hsize : payload.length = D.sizeof_report T)
    (hlive : st.io_service_client_ = true) :
    virtual_hid_device_service_server.received D (some (D.request_value t :: payload)) sender st
      = enqueue_to_dispatcher
          (.post_report T ((D.request_value t :: payload).take (D.sizeof_report T))) st ∧
    (∀ (n : native) (report : List Nat) (st' : state),
      run_task D n (.post_report T report) st'
        = match st'.connection_ with
          | some c =>
            observe (.IOConnectCallStructMethod c
              (if T = .pointing_input then .virtual_hid_pointing_post_report
                else .virtual_hid_keyboard_post_report)
              report (D.sizeof_report T)) st'
          | Option.none => st') ∧
    (∀ (c : Nat) (es : List event) (n : native),
      st.connection_ = some c → (∀ t' ∈ st.queue, t'.lifecycle = false) →
      es.countP event.is_run = st.queue.length →
      ∃ post,
        (run D (virtual_hid_device_service_server.received D
            (some (D.request_value t :: payload)) sender st) es).queue
          = .post_report T ((D.request_value t :: payload).take (D.sizeof_report T)) :: post ∧
        step D (run D (virtual_hid_device_service_server.received D
            (some (D.request_value t :: payload)) sender st) es) (.run n)
          = observe (.IOConnectCallStructMethod c
              (if T = .pointing_input then .virtual_hid_pointing_post_report
                else .virtual_hid_keyboard_post_report)
              ((D.request_value t :: payload).take (D.sizeof_report T)) (D.sizeof_report T))
              { run D (virtual_hid_device_service_server.received D
                  (some (D.request_value t :: payload)) sender st) es with queue := post }) := by
  have ha := (received_right_size D payload sender st hlive).2 t T ht hsize
  have hb : ∀ (n : native) (report : List Nat) (st' : state),
      run_task D n (.post_report T report) st'
        = match st'.connection_ with
          | some c =>
            observe (.IOConnectCallStructMethod c
              (if T = .pointing_input then .virtual_hid_pointing_post_report
                else .virtual_hid_keyboard_post_report)
              report (D.sizeof_report T)) st'
          | Option.none => st' := by
    intro n report st'
    cases T <;> cases hc : st'.connection_ <;>
      simp [run_task, io_service_client.post_report, hc, io_service_client.post_report_method]
  refine ⟨ha, hb, ?_⟩
  intro c es n hc hq hcount
  rw [ha]
  obtain ⟨post, hpost, hc'⟩ := run_reaches_queued D es (enqueue_to_dispatcher
      (.post_report T ((D.request_value t :: payload).take (D.sizeof_report T))) st)
    st.queue _ [] c rfl hq hc hcount
  refine ⟨post, hpost, ?_⟩
  simp only [step, hpost]
  rw [hb]
  simp only [hc']

/-- C10 (witness): a post-pointing-report datagram of 1 + 8 bytes is handled
while connection 9 is open and a keyboard readiness query is queued; a timer
tick arrives, the dispatcher runs the query, and the next run makes the
struct-method call on connection 9; the same run, from the handler of the
datagram at the head of the queue, evaluated. -/
theorem C10_report_routing_witness :
    (∃ post,
      (run declarations.sample
        (virtual_hid_device_service_server.received declarations.sample
          (some (declarations.sample.request_value .post_pointing_input_report
            :: [1, 0, 0, 0, 5, 6, 0, 0])) 7
          (state.mk (some 5) (some 9) true true Option.none Option.none
            [.virtual_hid_keyboard_ready] []))
        [.emit .ready_timer_, .run ⟨Option.none, some 1⟩]).queue
        = .post_report .pointing_input
            ((declarations.sample.request_value .post_pointing_input_report
              :: [1, 0, 0, 0, 5, 6, 0, 0]).take
              (declarations.sample.sizeof_report .pointing_input)) :: post ∧
      step declarations.sample
        (run declarations.sample
          (virtual_hid_device_service_server.received declarations.sample
            (some (declarations.sample.request_value .post_pointing_input_report
              :: [1, 0, 0, 0, 5, 6, 0, 0])) 7
            (state.mk (some 5) (some 9) true true Option.none Option.none
              [.virtual_hid_keyboard_ready] []))
          [.emit .ready_timer_, .run ⟨Option.none, some 1⟩])
        (.run ⟨Option.none, Option.none⟩)
        = observe (.IOConnectCallStructMethod 9
            (if hid_report.pointing_input = .pointing_input then
              .virtual_hid_pointing_post_report
              else .virtual_hid_keyboard_post_report)
            ((declarations.sample.request_value .post_pointing_input_report
              :: [1, 0, 0, 0, 5, 6, 0, 0]).take
              (declarations.sample.sizeof_report .pointing_input))
            (declarations.sample.sizeof_report .pointing_input))
            { run declarations.sample
                (virtual_hid_device_service_server.received declarations.sample
                  (some (declarations.sample.request_value .post_pointing_input_report
                    :: [1, 0, 0, 0, 5, 6, 0, 0])) 7
                  (state.mk (some 5) (some 9) true true Option.none Option.none
                    [.virtual_hid_keyboard_ready] []))
                [.emit .ready_timer_, .run ⟨Option.none, some 1⟩] with queue := post }) ∧
    (run declarations.sample
      (state.mk (some 5) (some 9) true true Option.none Option.none
        [.handler (.received (some [13, 1, 0, 0, 0, 5, 6, 0, 0]) 7),
         .virtual_hid_keyboard_ready] [])
      [.run ⟨Option.none, Option.none⟩, .emit .ready_timer_, .run ⟨Option.none, some 1⟩,
       .run ⟨Option.none, Option.none⟩]).trace
      = [.IOConnectCallScalarMethod 9 .virtual_hid_keyboard_ready [],
         .IOConnectCallStructMethod 9 .virtual_hid_pointing_post_report
           [13, 1, 0, 0, 0, 5, 6, 0] 8] :=
  ⟨(C10_report_routing declarations.sample .post_pointing_input_report .pointing_input
    [1, 0, 0, 0, 5, 6, 0, 0] 7
    (state.mk (some 5) (some 9) true true Option.none Option.none
      [.virtual_hid_keyboard_ready] [])
    rfl rfl rfl).2.2 9 [.emit .ready_timer_, .run ⟨Option.none, some 1⟩]
    ⟨Option.none, Option.none⟩ rfl (by decide) rfl,
    by decide⟩
